import Mathlib

/-!
# Verification of the XTV reader (xtvReader.py / xdrfile.py)

A shallow embedding of the XTV binary-output reader.  The byte-stream
unpacker (xdrfile.py) is treated as an abstract random-access decode
primitive, exactly as the design document describes it; machine floats are
modelled as exact rationals.  Python-level failure modes (XTVError, and the
built-in AttributeError / IndexError / ValueError / TypeError /
ZeroDivisionError / EOFError exceptions, plus `exit()` calls) are modelled
with an explicit error type, and every query returns `Except Err _`.

Python 2 semantics that matter here and are reproduced faithfully:
* `/` on ints is floor division and raises on a zero divisor;
* `None > 0` is `False`, `int(None)` raises `TypeError`;
* `list[n]` supports negative indices and raises `IndexError` out of range;
* `list.index(x)` raises `ValueError` when `x` is absent;
* `round(x, 13)` rounds to 13 digits after the decimal point, half away
  from zero;
* `bisect.bisect_right` is the textbook binary search on the list.
-/

-- Equality of `Except` results is decidable when both components are.
deriving instance DecidableEq for Except

/-! ## Python-style primitives -/

/-- Errors surfaced by the reader: the `XTVError` codes of `err_codes`. -/
inductive XtvErr
  | TIME_UBOUND_ERR
  | TIME_LBOUND_ERR
  | ERR_XRYT_INDEX
  | ERR_YT_INDEX
  | ERR_AXRYT_INDEX
  | INVALID_CHANNEL1
  | INVALID_CHANNEL2
  | INDEX_I_LBOUND_ERR
  | INDEX_J_LBOUND_ERR
  | INDEX_K_LBOUND_ERR
  | INDEX_I_UBOUND_ERR
  | INDEX_J_UBOUND_ERR
  | INDEX_K_UBOUND_ERR
  | AXIAL_UBOUND_ERR
  | AXIAL_LBOUND_ERR
  | AXIAL_SCALAR_ERR
  | UNEXPECTED_DIMPOS
  | UNKNOWN_DIM
  deriving DecidableEq

/-- All ways a query can fail: an `XTVError`, a Python built-in exception,
or a `print`-and-`exit()` call. -/
inductive Err
  | xtv (e : XtvErr)
  | attributeError
  | indexError
  | valueError
  | typeError
  | zeroDivisionError
  | eofError
  | sysExit
  deriving DecidableEq

/-- Python 2 `/` on ints: floor division, `ZeroDivisionError` on a zero
divisor. -/
def pyDiv (a b : ℤ) : Except Err ℤ :=
  if b = 0 then .error .zeroDivisionError else .ok (Int.fdiv a b)

/-- Python `l[n]`: nonnegative indices from the front, negative indices wrap
from the back, anything else raises `IndexError`. -/
def pyListGet {α : Type} (l : List α) (n : ℤ) : Except Err α :=
  if h1 : 0 ≤ n ∧ n.toNat < l.length then .ok (l.get ⟨n.toNat, h1.2⟩)
  else if h2 : n < 0 ∧ 0 ≤ n + l.length ∧ (n + l.length).toNat < l.length then
    .ok (l.get ⟨(n + l.length).toNat, h2.2.2⟩)
  else .error .indexError

/-- Python `l.index(x)`: position of the first occurrence, `ValueError`
when absent. -/
def pyListIndex (l : List ℚ) (x : ℚ) : Except Err ℕ :=
  match l with
  | [] => .error .valueError
  | a :: rest =>
    if a = x then .ok 0
    else
      match pyListIndex rest x with
      | .error e => .error e
      | .ok n => .ok (n + 1)

/-- Python 2 `round(q, nd)`: round to `nd` digits after the decimal point,
halves away from zero. -/
def pyRound (q : ℚ) (nd : ℕ) : ℚ :=
  (if 0 ≤ q * (10 : ℚ) ^ nd then ((⌊q * (10 : ℚ) ^ nd + 1 / 2⌋ : ℤ) : ℚ)
   else ((⌈q * (10 : ℚ) ^ nd - 1 / 2⌉ : ℤ) : ℚ)) / (10 : ℚ) ^ nd

/-- Python `str.startswith`, on the character lists of the strings. -/
def strStartsWith (s pre : String) : Bool :=
  pre.data.isPrefixOf s.data

/-- Python `str.endswith`, on the reversed character lists. -/
def strEndsWith (s suf : String) : Bool :=
  suf.data.reverse.isPrefixOf s.data.reverse

/-- Python `str.strip()`: drop leading and trailing whitespace (structural
char-list implementation). -/
def pyStrip (s : String) : String :=
  ⟨((s.data.dropWhile Char.isWhitespace).reverse.dropWhile Char.isWhitespace).reverse⟩

/-- Python 2 `opt > 0` where `opt` may be `None`: `None > 0` is `False`. -/
def optGtZero : Option ℤ → Bool
  | none => false
  | some v => decide (0 < v)

/-- The lower-bound test `opt is None or opt == 0` of `getData`. -/
def isNoneOrZero : Option ℤ → Bool
  | none => true
  | some v => v == 0

/-- `bisect.bisect_right` body with explicit fuel (the live range shrinks at
every step, so fuel `hi - lo` suffices). -/
def bisectRightAux (a : List ℚ) (x : ℚ) : ℕ → ℕ → ℕ → ℕ
  | 0, lo, _ => lo
  | fuel + 1, lo, hi =>
    if lo < hi then
      let mid := (lo + hi) / 2
      if x < a.getD mid 0 then bisectRightAux a x fuel lo mid
      else bisectRightAux a x fuel (mid + 1) hi
    else lo

/-- `bisect.bisect_right(a, x)`. -/
def bisectRight (a : List ℚ) (x : ℚ) : ℕ :=
  bisectRightAux a x a.length 0 a.length

/-- The cell-center transform `[(z[i]+z[i+1])*0.5 for i in range(len(z)-1)]`. -/
def midpoints (l : List ℚ) : List ℚ :=
  (l.zip l.tail).map (fun p => (p.1 + p.2) * (1 / 2))

/-- `int(s)` on a nonempty digit string. -/
def digitsToNat (l : List Char) : ℕ :=
  l.foldl (fun acc c => 10 * acc + (c.toNat - Char.toNat '0')) 0

/-- `int` applied to the decimal string captured by the identifier regex. -/
def pyIntOfString (s : String) : ℤ :=
  (digitsToNat s.data : ℤ)

/-! ## Data model (header entities built by the constructor) -/

/-- `_Template`: the geometric mesh descriptor of one `GD1D`/`GD2D`/`GD3D`
block (with the face arrays filled in by the matching `GD?A` block). -/
structure Template where
  name : String := ""
  nCells : ℤ := 0
  nCellsI : ℤ := 0
  nCellsJ : ℤ := 0
  nCellsK : ℤ := 0
  dimi : ℤ := 0
  dimj : ℤ := 0
  dimk : ℤ := 0
  coordSys : String := ""
  coordi : String := ""
  coordj : String := ""
  coordk : String := ""
  dynAxI : ℤ := 0
  dynAxJ : ℤ := 0
  dynAxK : ℤ := 0
  fI : List ℚ := []
  fJ : List ℚ := []
  fK : List ℚ := []
  grav : List ℚ := []
  fa : List ℚ := []
  deriving DecidableEq

/-- `_SideLeg`. -/
structure SideLeg where
  sCell : ℤ
  eCell : ℤ
  jCell : ℤ
  deriving DecidableEq

/-- `_DynamicAxis`. -/
structure DynamicAxis where
  dsAx : String := ""
  varType : String := ""
  sVarName : String := ""
  lVarName : String := ""
  vMax : ℤ := 0
  deriving DecidableEq

/-- `_Channel`: one named retrievable variable of a component.  The Python
back-reference to the owning component is modelled as the component key. -/
structure Channel where
  name : String := ""
  comp : ℤ × String := (0, "")
  startIncrement : ℤ := 0
  varLabel : String := ""
  uType : String := ""
  uLabel : String := ""
  dimPosAt : String := ""
  freqAt : String := ""
  cMapAt : String := ""
  vectAt : String := ""
  spOptAt : String := ""
  vectName : String := ""
  vTmpl : ℤ := 0
  vLength : ℤ := 0
  deriving DecidableEq

/-- `_Component`.  `channels` is the insertion-ordered dict keyed by the
stripped variable name; `templates` keeps the `None` placeholder at index 0
exactly as the constructor appends it. -/
structure Component where
  number : ℤ := 0
  compType : String := ""
  channels : List (String × Channel) := []
  nJuns : ℤ := 0
  nTempl : ℤ := 0
  templates : List (Option Template) := []
  nLegs : ℤ := 0
  sidelegs : List SideLeg := []
  nDynAx : ℤ := 0
  dynAxes : List DynamicAxis := []
  title : String := ""
  dim : ℤ := 0
  deriving DecidableEq

/-- The state of an opened `XtvFile` object as the query methods see it:
the component table, the time index, the two layout numbers from the
starting block, and the file's `unpack_float`-at-position primitive. -/
structure XtvState where
  components : List ((ℤ × String) × Component)
  times : List ℚ
  dataStart : ℤ
  dataLen : ℤ
  floatAt : ℤ → Option ℚ

/-- `_fineMeshVars`. -/
def fineMeshVars : List String :=
  ["depthZrRxIn", "depthZrRxOn", "eCR50_46", "hgap", "hrfgi", "hrfgo",
   "hrfli", "hrflo", "hrfvi", "hrfvo", "ihtfi", "ihtfo", "qchfi", "qchfo",
   "rftn", "tchfi", "tchfo", "tmini", "tmino", "zht"]

/-! ## Channel resolver -/

/-- `channel.rpartition('-')` reduced to the pair the caller keeps:
(text before the last hyphen, text after it); with no hyphen the whole
string lands in the second slot and the first is empty. -/
def rpartitionDash (s : String) : String × String :=
  let rev := s.data.reverse
  let p := rev.span (fun c => !(c == '-'))
  match p.2 with
  | [] => ("", s)
  | _ :: before => (⟨before.reverse⟩, ⟨p.1.reverse⟩)

/-- `re.match` of `(?P<id>\d+)(?:A(?P<axial>\d\d+)(?:R(?P<radial>\d\d+)`
`(?:T(?P<theta>\d\d+))?)?)?` against the id-and-mesh token: `none` when the
whole pattern fails (no leading digit), otherwise the four captured groups.
The pattern is anchored at the start only, so trailing text is ignored; the
greedy digit runs never backtrack because each is followed by a letter. -/
def matchIdMesh (s : List Char) : Option (String × Option String × Option String × Option String) :=
  let p := s.span Char.isDigit
  if p.1.isEmpty then none
  else
    match p.2 with
    | 'A' :: r1 =>
      let pa := r1.span Char.isDigit
      if pa.1.length ≥ 2 then
        match pa.2 with
        | 'R' :: r2 =>
          let pr := r2.span Char.isDigit
          if pr.1.length ≥ 2 then
            match pr.2 with
            | 'T' :: r3 =>
              let pt := r3.span Char.isDigit
              if pt.1.length ≥ 2 then some (⟨p.1⟩, some ⟨pa.1⟩, some ⟨pr.1⟩, some ⟨pt.1⟩)
              else some (⟨p.1⟩, some ⟨pa.1⟩, some ⟨pr.1⟩, none)
            | _ => some (⟨p.1⟩, some ⟨pa.1⟩, some ⟨pr.1⟩, none)
          else some (⟨p.1⟩, some ⟨pa.1⟩, none, none)
        | _ => some (⟨p.1⟩, some ⟨pa.1⟩, none, none)
      else some (⟨p.1⟩, none, none, none)
    | _ => some (⟨p.1⟩, none, none, none)

/-- Result of `__parseChannelString`: all elements are strings on the match
path, while the fallback path returns the Python int `0` for the id. -/
structure ParsedChannel where
  varName : String
  compID : String ⊕ ℤ
  a : Option String
  r : Option String
  t : Option String
  deriving DecidableEq

/-- `XtvFile.__parseChannelString`: split on the last hyphen, match the
trailing token against the identifier regex, and on a failed match fall
back to the whole identifier as variable name with id 0 and `'0'` indices. -/
def parseChannelString (channel : String) : ParsedChannel :=
  let p := rpartitionDash channel
  match matchIdMesh p.2.data with
  | some q => ⟨p.1, Sum.inl q.1, q.2.1, q.2.2.1, q.2.2.2⟩
  | none => ⟨channel, Sum.inr 0, some "0", some "0", some "0"⟩

/-- The `int(compID)` conversion in `__getCompType`'s caller. -/
def compIDToInt : String ⊕ ℤ → ℤ
  | .inl s => pyIntOfString s
  | .inr z => z

/-- `self.components.get((id, compType))`; a `None` component type never
matches a key. -/
def lookupComp (S : XtvState) (id : ℤ) (ct : Option String) : Option Component :=
  match ct with
  | none => none
  | some c => S.components.lookup (id, c)

/-- `XtvFile.__getCompType`: scan the component table in insertion order for
the first component with this numeric id whose channel dict holds the
(unstripped) variable name. -/
def getCompType (S : XtvState) (cid : ℤ) (varName : String) : Option String :=
  (S.components.find? (fun e => e.1.1 == cid && (e.2.channels.lookup varName).isSome)).map
    (fun e => e.1.2)

/-- Result of `__decode_channel`: numeric fields converted to int, with
`int(None)`'s `TypeError` caught and turned back into `None`. -/
structure DecodedChannel where
  varName : String
  compType : Option String
  id : ℤ
  a : Option ℤ
  r : Option ℤ
  t : Option ℤ
  deriving DecidableEq

/-- `XtvFile.__decode_channel`. -/
def decodeChannel (S : XtvState) (channel : String) : DecodedChannel :=
  let p := parseChannelString channel
  let cid := compIDToInt p.compID
  { varName := p.varName
    compType := getCompType S cid p.varName
    id := cid
    a := p.a.map pyIntOfString
    r := p.r.map pyIntOfString
    t := p.t.map pyIntOfString }

/-- `XtvFile.__getDimPosAt`: the stripped `dimPosAt` tag of the channel,
with any `AttributeError` on the lookup chain converted to
`INVALID_CHANNEL1`. -/
def getDimPosAt (S : XtvState) (id : ℤ) (ct : Option String) (varName : String) :
    Except Err String :=
  match lookupComp S id ct with
  | none => .error (.xtv .INVALID_CHANNEL1)
  | some comp =>
    match comp.channels.lookup (pyStrip varName) with
    | none => .error (.xtv .INVALID_CHANNEL1)
    | some ch => .ok (pyStrip ch.dimPosAt)

/-- `XtvFile.__transform_indices`: convert APTPlot (xr, yt, z) indices to
(i, j, k) according to the channel's declared dimensionality. -/
def transformIndices (S : XtvState) (id : ℤ) (ct : Option String) (varName : String)
    (xr yt z : Option ℤ) : Except Err (Option ℤ × Option ℤ × Option ℤ) :=
  match getDimPosAt S id ct varName with
  | .error e => .error e
  | .ok dimPosAt =>
    if strStartsWith dimPosAt "3" then .ok (xr, yt, z)
    else if strStartsWith dimPosAt "2" then
      if optGtZero yt then .error (.xtv .ERR_YT_INDEX) else .ok (xr, z, some 0)
    else if strStartsWith dimPosAt "1" then
      if optGtZero yt || optGtZero xr then .error (.xtv .ERR_XRYT_INDEX)
      else .ok (z, some 0, some 0)
    else if strStartsWith dimPosAt "0" then
      if optGtZero yt || optGtZero xr || optGtZero z then .error (.xtv .ERR_AXRYT_INDEX)
      else .ok (some 0, some 0, some 0)
    else .error .valueError

/-! ## Value locator -/

/-- Lines 985–1084 of `XtvFile.getData`: resolve the channel, compute the
per-dimensionality extents and the linear cell index, running the
lower-bound, divide, and upper-bound checks exactly in source order.
The `try/except AttributeError` around the `dimi/dimj/dimk` reads is
reproduced by branching on the (possibly `None`) template; a bad template
index raises `IndexError`, which that handler does not catch. -/
def getDataCell (S : XtvState) (id : ℤ) (ct : Option String) (varName : String)
    (i j k : Option ℤ) : Except Err ℤ :=
  match getDimPosAt S id ct varName with
  | .error e => .error e
  | .ok dimPosAt =>
  match lookupComp S id ct with
  | none => .error .attributeError
  | some comp =>
  match comp.channels.lookup (pyStrip varName) with
  | none => .error .attributeError
  | some ch =>
  match pyListGet comp.templates ch.vTmpl with
  | .error e => .error e
  | .ok templOpt =>
  let vLength := ch.vLength
  if strStartsWith dimPosAt "3" then
    match i with
    | none => .error (.xtv .INDEX_I_LBOUND_ERR)
    | some iv =>
    if iv = 0 then .error (.xtv .INDEX_I_LBOUND_ERR) else
    match j with
    | none => .error (.xtv .INDEX_J_LBOUND_ERR)
    | some jv =>
    if jv = 0 then .error (.xtv .INDEX_J_LBOUND_ERR) else
    match k with
    | none => .error (.xtv .INDEX_K_LBOUND_ERR)
    | some kv =>
    if kv = 0 then .error (.xtv .INDEX_K_LBOUND_ERR) else
    match templOpt with
    | none => .error .attributeError
    | some T =>
    if strEndsWith dimPosAt "I" then
      match pyDiv vLength (T.dimj * T.dimk) with
      | .error e => .error e
      | .ok nmesh_i =>
      match pyDiv vLength ((T.dimi + 1) * T.dimk) with
      | .error e => .error e
      | .ok nmesh_j =>
      match pyDiv vLength ((T.dimi + 1) * T.dimj) with
      | .error e => .error e
      | .ok nmesh_k =>
      let levdim := (T.dimi + 1) * T.dimj
      let cell := (kv - 1) * levdim + (jv - 1) * (T.dimi + 1) + iv
      if iv > nmesh_i then .error (.xtv .INDEX_I_UBOUND_ERR)
      else if jv > nmesh_j then .error (.xtv .INDEX_J_UBOUND_ERR)
      else if kv > nmesh_k then .error (.xtv .INDEX_K_UBOUND_ERR)
      else .ok cell
    else if strEndsWith dimPosAt "J" then
      if T.coordSys = "CYL3D" then
        match pyDiv vLength (T.dimj * T.dimk) with
        | .error e => .error e
        | .ok nmesh_i =>
        match pyDiv vLength (T.dimi * T.dimk) with
        | .error e => .error e
        | .ok nmesh_j =>
        match pyDiv vLength (T.dimi * T.dimj) with
        | .error e => .error e
        | .ok nmesh_k =>
        let levdim := T.dimi * T.dimj
        let cell := (kv - 1) * levdim + (jv - 1) * T.dimi + iv
        if iv > nmesh_i then .error (.xtv .INDEX_I_UBOUND_ERR)
        else if jv > nmesh_j then .error (.xtv .INDEX_J_UBOUND_ERR)
        else if kv > nmesh_k then .error (.xtv .INDEX_K_UBOUND_ERR)
        else .ok cell
      else
        match pyDiv vLength ((T.dimj + 1) * T.dimk) with
        | .error e => .error e
        | .ok nmesh_i =>
        match pyDiv vLength (T.dimi * T.dimk) with
        | .error e => .error e
        | .ok nmesh_j =>
        match pyDiv vLength (T.dimi * (T.dimj + 1)) with
        | .error e => .error e
        | .ok nmesh_k =>
        let levdim := T.dimi * (T.dimj + 1)
        let cell := (kv - 1) * levdim + (jv - 1) * T.dimi + iv
        if iv > nmesh_i then .error (.xtv .INDEX_I_UBOUND_ERR)
        else if jv > nmesh_j then .error (.xtv .INDEX_J_UBOUND_ERR)
        else if kv > nmesh_k then .error (.xtv .INDEX_K_UBOUND_ERR)
        else .ok cell
    else if strEndsWith dimPosAt "K" then
      match pyDiv vLength (T.dimj * (T.dimk + 1)) with
      | .error e => .error e
      | .ok nmesh_i =>
      match pyDiv vLength (T.dimi * (T.dimk + 1)) with
      | .error e => .error e
      | .ok nmesh_j =>
      match pyDiv vLength (T.dimi * T.dimj) with
      | .error e => .error e
      | .ok nmesh_k =>
      let levdim := T.dimi * T.dimj
      let cell := (kv - 1) * levdim + (jv - 1) * T.dimi + iv
      if iv > nmesh_i then .error (.xtv .INDEX_I_UBOUND_ERR)
      else if jv > nmesh_j then .error (.xtv .INDEX_J_UBOUND_ERR)
      else if kv > nmesh_k then .error (.xtv .INDEX_K_UBOUND_ERR)
      else .ok cell
    else if strEndsWith dimPosAt "c" then
      match pyDiv vLength (T.dimj * T.dimk) with
      | .error e => .error e
      | .ok nmesh_i =>
      match pyDiv vLength (T.dimi * T.dimk) with
      | .error e => .error e
      | .ok nmesh_j =>
      match pyDiv vLength (T.dimi * T.dimj) with
      | .error e => .error e
      | .ok nmesh_k =>
      let levdim := T.dimi * T.dimj
      let cell := (kv - 1) * levdim + (jv - 1) * T.dimi + iv
      if iv > nmesh_i then .error (.xtv .INDEX_I_UBOUND_ERR)
      else if jv > nmesh_j then .error (.xtv .INDEX_J_UBOUND_ERR)
      else if kv > nmesh_k then .error (.xtv .INDEX_K_UBOUND_ERR)
      else .ok cell
    else .error (.xtv .UNEXPECTED_DIMPOS)
  else if strStartsWith dimPosAt "2" then
    match templOpt with
    | none => .error .typeError
    | some T =>
    match pyDiv vLength (T.dimj + 1) with
    | .error e => .error e
    | .ok nmesh_i =>
    match i with
    | none => .error (.xtv .INDEX_I_LBOUND_ERR)
    | some iv =>
    if iv = 0 then .error (.xtv .INDEX_I_LBOUND_ERR)
    else if iv > nmesh_i then .error (.xtv .INDEX_I_UBOUND_ERR)
    else
    match pyDiv vLength T.dimi with
    | .error e => .error e
    | .ok nmesh_j =>
    match j with
    | none => .error (.xtv .INDEX_J_LBOUND_ERR)
    | some jv =>
    if jv = 0 then .error (.xtv .INDEX_J_LBOUND_ERR)
    else if jv > nmesh_j then .error (.xtv .INDEX_J_UBOUND_ERR)
    else .ok ((jv - 1) * T.dimi + iv)
  else if strStartsWith dimPosAt "1" then
    match i with
    | none => .error (.xtv .INDEX_I_LBOUND_ERR)
    | some iv =>
    if iv = 0 then .error (.xtv .INDEX_I_LBOUND_ERR)
    else if iv > vLength then .error (.xtv .INDEX_I_UBOUND_ERR)
    else .ok iv
  else if strStartsWith dimPosAt "0" then .ok 1
  else .error (.xtv .UNKNOWN_DIM)

/-- `XtvFile.__interpolate`, with float division's `ZeroDivisionError`. -/
def interpolate (x1 y1 x2 y2 x : ℚ) : Except Err ℚ :=
  if x2 - x1 = 0 then .error .zeroDivisionError
  else .ok ((y2 - y1) * (x - x1) / (x2 - x1) + y1)

/-- `XtvFile.getData`: cell/offset computation, then the time checks
(negative-time latch, upper/lower bound), then exact-match decode or
two-point linear interpolation between the bracketing edits. -/
def getData (S : XtvState) (time : ℚ) (id : ℤ) (ct : Option String) (varName : String)
    (i j k : Option ℤ) : Except Err ℚ :=
  match getDataCell S id ct varName i j k with
  | .error e => .error e
  | .ok cell =>
  match lookupComp S id ct with
  | none => .error .attributeError
  | some comp =>
  match comp.channels.lookup varName with
  | none => .error .attributeError
  | some ch =>
  let startingPoint := ch.startIncrement + (cell - 1) * 4
  match (if time < 0 then pyListGet S.times (-1)
         else
           match pyListGet S.times (-1) with
           | .error e => .error e
           | .ok tl =>
             if time > tl then .error (.xtv .TIME_UBOUND_ERR)
             else
               match pyListGet S.times 0 with
               | .error e => .error e
               | .ok t0 =>
                 if time < t0 then .error (.xtv .TIME_LBOUND_ERR) else .ok time) with
  | .error e => .error e
  | .ok time2 =>
  let se := bisectRight S.times time2
  match pyListGet S.times ((se : ℤ) - 1) with
  | .error e => .error e
  | .ok tPrev =>
  if time2 = tPrev then
    match S.floatAt (S.dataStart + ((se : ℤ) - 1) * S.dataLen + startingPoint) with
    | none => .error .eofError
    | some v => .ok v
  else
    match S.floatAt (S.dataStart + ((se : ℤ) - 1) * S.dataLen + startingPoint) with
    | none => .error .eofError
    | some y1 =>
    match S.floatAt (S.dataStart + (se : ℤ) * S.dataLen + startingPoint) with
    | none => .error .eofError
    | some y2 =>
    match pyListGet S.times ((se : ℤ)) with
    | .error e => .error e
    | .ok tNext => interpolate tPrev y1 tNext y2 time2

/-! ## Geometry provider -/

/-- `unpack_farray(n, unpack_float)` after a seek: `n` consecutive 4-byte
floats starting at `pos`; a short read raises `EOFError`. -/
def readFloats (S : XtvState) (pos : ℤ) : ℕ → Option (List ℚ)
  | 0 => some []
  | n + 1 =>
    match S.floatAt pos with
    | none => none
    | some v =>
      match readFloats S (pos + 4) n with
      | none => none
      | some rest => some (v :: rest)

/-- `XtvFile.getAxialLocations` before the final rounding step: empty list
for `0D` variables, the live `zht` array (trimmed at the first `-1.0`
sentinel) for fine-mesh `htstrc` variables, and the appropriate template
face array (possibly collapsed to midpoints) everywhere else. -/
def getAxialLocationsRaw (S : XtvState) (time : ℚ) (id : ℤ) (ct : Option String)
    (varName : String) : Except Err (List ℚ) :=
  match getDimPosAt S id ct varName with
  | .error e => .error e
  | .ok dimPosAt =>
  match lookupComp S id ct with
  | none => .error .attributeError
  | some comp =>
  match comp.channels.lookup (pyStrip varName) with
  | none => .error .attributeError
  | some ch =>
  let tmplInd := ch.vTmpl
  if dimPosAt = "0D" then .ok []
  else if ct = some "htstrc" then
    match ((if dimPosAt = "1dFa" then
             match comp.channels.lookup varName with
             | none => .error Err.attributeError
             | some ch2 => .ok ch2.vLength
           else if dimPosAt = "2dFaJ" then
             match pyListGet comp.templates tmplInd with
             | .error e => .error e
             | .ok none => .error Err.attributeError
             | .ok (some T) => .ok (T.dimj + 1)
           else .error Err.sysExit) : Except Err ℤ) with
    | .error e => .error e
    | .ok vLength =>
    if fineMeshVars.contains varName then
      match comp.channels.lookup "zht" with
      | none => .error .attributeError
      | some chz =>
      let startingPoint := chz.startIncrement + (1 - 1) * 4
      let startingEdit := bisectRight S.times time
      match readFloats S (S.dataStart + ((startingEdit : ℤ) - 1) * S.dataLen + startingPoint)
          vLength.toNat with
      | none => .error .eofError
      | some zl =>
        match pyListIndex zl (-1) with
        | .error e => .error e
        | .ok idx => .ok (zl.take idx)
    else
      match pyListGet comp.templates tmplInd with
      | .error e => .error e
      | .ok none => .error .attributeError
      | .ok (some T) => .ok T.fJ
  else if ct = some "htstr" then
    match pyListGet comp.templates tmplInd with
    | .error e => .error e
    | .ok none => .error .attributeError
    | .ok (some T) => .ok (T.fI.drop 1)
  else if ct = some "vessel" then
    match pyListGet comp.templates tmplInd with
    | .error e => .error e
    | .ok none => .error .attributeError
    | .ok (some T) => if dimPosAt ≠ "3dFaK" then .ok (midpoints T.fK) else .ok T.fK
  else if strStartsWith dimPosAt "1" then
    match pyListGet comp.templates tmplInd with
    | .error e => .error e
    | .ok none => .error .attributeError
    | .ok (some T) => if dimPosAt = "1dCc" then .ok (midpoints T.fI) else .ok T.fI
  else .error Err.sysExit

/-- `XtvFile.getAxialLocations`: the raw location list with every entry
passed through `round(z, 13)` (the `0D` early return hands back the empty
list, over which the rounding map is the identity). -/
def getAxialLocations (S : XtvState) (time : ℚ) (id : ℤ) (ct : Option String)
    (varName : String) : Except Err (List ℚ) :=
  Except.map (List.map (fun z => pyRound z 13)) (getAxialLocationsRaw S time id ct varName)

/-! ## Query facade -/

/-- `XtvFile.getAxialData`: time checks first, then either the exact-time
branch (one spatial lookup, possibly spatially interpolated) or the
two-time branch (a spatial lookup per bracketing edit, then a final
interpolation in time). -/
def getAxialData (S : XtvState) (time : ℚ) (id : ℤ) (ct : Option String) (varName : String)
    (zLoc : ℚ) (xr yt : Option ℤ) : Except Err ℚ :=
  match (if time < 0 then pyListGet S.times (-1)
         else
           match pyListGet S.times (-1) with
           | .error e => .error e
           | .ok tl =>
             if time > tl then .error (.xtv .TIME_UBOUND_ERR)
             else
               match pyListGet S.times 0 with
               | .error e => .error e
               | .ok t0 =>
                 if time < t0 then .error (.xtv .TIME_LBOUND_ERR) else .ok time) with
  | .error e => .error e
  | .ok time2 =>
  let ti := bisectRight S.times time2
  match pyListGet S.times ((ti : ℤ) - 1) with
  | .error e => .error e
  | .ok tPrev =>
  if time2 = tPrev then
    match getAxialLocations S time2 id ct varName with
    | .error e => .error e
    | .ok zht =>
    if zht.length = 0 then .error (.xtv .AXIAL_SCALAR_ERR)
    else
      match pyListGet zht (-1) with
      | .error e => .error e
      | .ok zl =>
      if zLoc > zl then .error (.xtv .AXIAL_UBOUND_ERR)
      else
        match pyListGet zht 0 with
        | .error e => .error e
        | .ok z0 =>
        if zLoc < z0 then .error (.xtv .AXIAL_LBOUND_ERR)
        else
          let z := bisectRight zht zLoc
          match pyListGet zht ((z : ℤ) - 1) with
          | .error e => .error e
          | .ok zv =>
          if zLoc = zv then
            match transformIndices S id ct varName xr yt (some (z : ℤ)) with
            | .error e => .error e
            | .ok (i, j, k) => getData S time2 id ct varName i j k
          else
            match transformIndices S id ct varName xr yt (some (z : ℤ)) with
            | .error e => .error e
            | .ok (i, j, k) =>
            match getData S time2 id ct varName i j k with
            | .error e => .error e
            | .ok lVal =>
            match transformIndices S id ct varName xr yt (some ((z : ℤ) + 1)) with
            | .error e => .error e
            | .ok (i2, j2, k2) =>
            match getData S time2 id ct varName i2 j2 k2 with
            | .error e => .error e
            | .ok uVal =>
            match pyListGet zht ((z : ℤ)) with
            | .error e => .error e
            | .ok zn => interpolate zv lVal zn uVal zLoc
  else
    match pyListGet S.times ((ti : ℤ)) with
    | .error e => .error e
    | .ok timeUpper =>
    let timeLower := tPrev
    match getAxialLocations S timeLower id ct varName with
    | .error e => .error e
    | .ok zht =>
    if zht.length = 0 then .error (.xtv .AXIAL_SCALAR_ERR)
    else
      match pyListGet zht (-1) with
      | .error e => .error e
      | .ok zl =>
      if zLoc > zl then .error (.xtv .AXIAL_UBOUND_ERR)
      else
        match pyListGet zht 0 with
        | .error e => .error e
        | .ok z0 =>
        if zLoc < z0 then .error (.xtv .AXIAL_LBOUND_ERR)
        else
          let z := bisectRight zht zLoc
          match pyListGet zht ((z : ℤ) - 1) with
          | .error e => .error e
          | .ok zv =>
          match ((if zLoc = zv then
                   match transformIndices S id ct varName xr yt (some (z : ℤ)) with
                   | .error e => .error e
                   | .ok (i, j, k) => getData S timeLower id ct varName i j k
                 else
                   match transformIndices S id ct varName xr yt (some (z : ℤ)) with
                   | .error e => .error e
                   | .ok (i, j, k) =>
                   match getData S timeLower id ct varName i j k with
                   | .error e => .error e
                   | .ok lVal =>
                   match transformIndices S id ct varName xr yt (some ((z : ℤ) + 1)) with
                   | .error e => .error e
                   | .ok (i2, j2, k2) =>
                   match getData S timeLower id ct varName i2 j2 k2 with
                   | .error e => .error e
                   | .ok uVal =>
                   match pyListGet zht ((z : ℤ)) with
                   | .error e => .error e
                   | .ok zn => interpolate zv lVal zn uVal zLoc) : Except Err ℚ) with
          | .error e => .error e
          | .ok lvalue =>
          match getAxialLocations S timeUpper id ct varName with
          | .error e => .error e
          | .ok zht2 =>
          let z2 := bisectRight zht2 zLoc
          match pyListGet zht2 ((z2 : ℤ) - 1) with
          | .error e => .error e
          | .ok zv2 =>
          match ((if zLoc = zv2 then
                   match transformIndices S id ct varName xr yt (some (z2 : ℤ)) with
                   | .error e => .error e
                   | .ok (i, j, k) => getData S timeUpper id ct varName i j k
                 else
                   match transformIndices S id ct varName xr yt (some (z2 : ℤ)) with
                   | .error e => .error e
                   | .ok (i, j, k) =>
                   match getData S timeUpper id ct varName i j k with
                   | .error e => .error e
                   | .ok lVal =>
                   match transformIndices S id ct varName xr yt (some ((z2 : ℤ) + 1)) with
                   | .error e => .error e
                   | .ok (i2, j2, k2) =>
                   match getData S timeUpper id ct varName i2 j2 k2 with
                   | .error e => .error e
                   | .ok uVal =>
                   match pyListGet zht2 ((z2 : ℤ)) with
                   | .error e => .error e
                   | .ok zn => interpolate zv2 lVal zn uVal zLoc) : Except Err ℚ) with
          | .error e => .error e
          | .ok uvalue => interpolate timeLower lvalue timeUpper uvalue time2

/-- `XtvFile.getAxialDataChannel`: decode the channel string, then delegate
to `getAxialData` with the radial/theta indices. -/
def getAxialDataChannel (S : XtvState) (time : ℚ) (channel : String) (zLoc : ℚ) :
    Except Err ℚ :=
  let d := decodeChannel S channel
  getAxialData S time d.id d.compType d.varName zLoc d.r d.t

/-- One iteration of the `getTimeVectorAxial` loop body at a single time
edit. -/
def timeVectorAxialStep (S : XtvState) (id : ℤ) (ct : Option String) (varName : String)
    (xr yt : Option ℤ) (zLoc : ℚ) (time : ℚ) : Except Err ℚ :=
  match getAxialLocations S time id ct varName with
  | .error e => .error e
  | .ok zLocs =>
  let z := bisectRight zLocs zLoc
  match pyListGet zLocs ((z : ℤ) - 1) with
  | .error e => .error e
  | .ok zv =>
  if zLoc = zv then
    match transformIndices S id ct varName xr yt (some (z : ℤ)) with
    | .error e => .error e
    | .ok (i, j, k) => getData S time id ct varName i j k
  else
    match transformIndices S id ct varName xr yt (some (z : ℤ)) with
    | .error e => .error e
    | .ok (i, j, k) =>
    match getData S time id ct varName i j k with
    | .error e => .error e
    | .ok lVal =>
    match transformIndices S id ct varName xr yt (some ((z : ℤ) + 1)) with
    | .error e => .error e
    | .ok (i2, j2, k2) =>
    match getData S time id ct varName i2 j2 k2 with
    | .error e => .error e
    | .ok uVal =>
    match pyListGet zLocs ((z : ℤ)) with
    | .error e => .error e
    | .ok zn => interpolate zv lVal zn uVal zLoc

/-- The `for time in self.times` loop of `getTimeVectorAxial`, aborting at
the first failing edit exactly as the uncaught exception would. -/
def timeVectorAxialLoop (S : XtvState) (id : ℤ) (ct : Option String) (varName : String)
    (xr yt : Option ℤ) (zLoc : ℚ) : List ℚ → Except Err (List (ℚ × ℚ))
  | [] => .ok []
  | time :: rest =>
    match timeVectorAxialStep S id ct varName xr yt zLoc time with
    | .error e => .error e
    | .ok value =>
      match timeVectorAxialLoop S id ct varName xr yt zLoc rest with
      | .error e => .error e
      | .ok vector => .ok ((time, value) :: vector)

/-- `XtvFile.getTimeVectorAxial`: decode the channel, then build the
(time, value) list over every time edit. -/
def getTimeVectorAxial (S : XtvState) (channel : String) (zLoc : ℚ) :
    Except Err (List (ℚ × ℚ)) :=
  let d := decodeChannel S channel
  timeVectorAxialLoop S d.id d.compType d.varName d.r d.t zLoc S.times

/-! ## Constructor (header block parser) -/

/-- The byte-stream unpacker over the open file: each primitive decodes one
value at a byte position and returns the value with the next position, or
`none` on a read failure (`EOFError` etc.).  `readDoubleArray` is
`unpack_array(unpack_double)` (a length-prefixed array) as one primitive. -/
structure XtvStream where
  readString : ℤ → Option (String × ℤ)
  readInt : ℤ → Option (ℤ × ℤ)
  readFloat : ℤ → Option (ℚ × ℤ)
  readDoubleArray : ℤ → Option (List ℚ × ℤ)

/-- The fixed-format `StartingBlock` namedtuple. -/
structure StartingBlock where
  hdrString : String
  xtvMajorV : ℤ
  xtvMinorV : ℤ
  revNumber : ℤ
  xtvRes : ℤ
  nUnits : ℤ
  nComp : ℤ
  nSVar : ℤ
  nDVar : ℤ
  nSChannels : ℤ
  nDCannels : ℤ
  dataStart : ℤ
  dataLen : ℤ
  nPoints : ℤ
  status : ℤ
  spare1 : ℤ
  spare2 : ℤ
  spare3 : ℤ
  fmtString : String
  unitsSys : String
  sysName : String
  osString : String
  sDate : String
  sTime : String
  title : String
  deriving DecidableEq

/-- `n` consecutive `unpack_int` calls. -/
def readIntList (s : XtvStream) : ℕ → ℤ → Option (List ℤ × ℤ)
  | 0, p => some ([], p)
  | n + 1, p =>
    match s.readInt p with
    | none => none
    | some (v, p2) =>
      match readIntList s n p2 with
      | none => none
      | some (vs, p3) => some (v :: vs, p3)

/-- `n` consecutive `unpack_string` calls. -/
def readStringList (s : XtvStream) : ℕ → ℤ → Option (List String × ℤ)
  | 0, p => some ([], p)
  | n + 1, p =>
    match s.readString p with
    | none => none
    | some (v, p2) =>
      match readStringList s n p2 with
      | none => none
      | some (vs, p3) => some (v :: vs, p3)

/-- Unpacking of the `StartingBlock`: one string, seventeen ints, seven
strings, from position 0. -/
def parseStartingBlock (s : XtvStream) : Option (StartingBlock × ℤ) :=
  match s.readString 0 with
  | none => none
  | some (hdrString, p1) =>
  match readIntList s 17 p1 with
  | none => none
  | some (ints, p2) =>
  match readStringList s 7 p2 with
  | none => none
  | some (strs, p3) =>
  match ints, strs with
  | [a1, a2, a3, a4, a5, a6, a7, a8, a9, a10, a11, a12, a13, a14, a15, a16, a17],
    [s1, s2, s3, s4, s5, s6, s7] =>
    some (⟨hdrString, a1, a2, a3, a4, a5, a6, a7, a8, a9, a10, a11, a12, a13, a14,
           a15, a16, a17, s1, s2, s3, s4, s5, s6, s7⟩, p3)
  | _, _ => none

/-- Insert-or-replace into an insertion-ordered dict (Python dict
assignment semantics). -/
def dictSet {α β : Type} [BEq α] (l : List (α × β)) (k : α) (v : β) : List (α × β) :=
  if l.any (fun e => e.1 == k) then l.map (fun e => if e.1 == k then (k, v) else e)
  else l ++ [(k, v)]

/-- Apply an update to the component stored under a key (the Python code
mutates the object that the dict and `currentComp` share). -/
def updComp (l : List ((ℤ × String) × Component)) (k : ℤ × String)
    (f : Component → Component) : List ((ℤ × String) × Component) :=
  l.map (fun e => if e.1 == k then (e.1, f e.2) else e)

/-- The mutable locals of the block-parsing loop: the growing component
table, the `currentComp` / `currentTempl` bindings (`none` = not yet bound,
so that using them raises), and the running `recordLength` counter. -/
structure LoopState where
  components : List ((ℤ × String) × Component)
  currentComp : Option (ℤ × String)
  currentTempl : Option Template
  recordLength : ℤ

/-- Outcome of one block body: next state, or an exception part-way through
(with the state as mutated so far). -/
inductive BlockStep
  | ok (st : LoopState)
  | exc (st : LoopState)

/-- The `GCHd` block: start a new component.  The component is inserted into
the table as soon as its id and type are read; the remaining fields are
filled in by the reads that follow. -/
def handleGCHd (s : XtvStream) (p : ℤ) (st : LoopState) : BlockStep :=
  match s.readInt p with
  | none => .exc st
  | some (compID, p1) =>
  match s.readInt p1 with
  | none => .exc st
  | some (_, p2) =>
  match s.readString p2 with
  | none => .exc st
  | some (compType, p3) =>
  let key := (compID, pyStrip compType)
  let st1 : LoopState :=
    { st with components := dictSet st.components key { number := compID, compType := compType },
              currentComp := some key }
  match s.readString p3 with
  | none => .exc st1
  | some (title, p4) =>
  match readIntList s 9 p4 with
  | none => .exc st1
  | some (ints, _) =>
  match ints with
  | [dim, nTempl, nJuns, nLegs, _nSVar, _nDVar, _nVect, _nChild, nDynAx] =>
    .ok { st1 with components := updComp st1.components key (fun c =>
            { c with title := title, dim := dim, nTempl := nTempl,
                     templates := c.templates ++ [none],
                     nJuns := nJuns, nLegs := nLegs, nDynAx := nDynAx }) }
  | _ => .exc st1

/-- The `GD3D` block: declare a 3D template and pick its axis labels from
the coordinate system. -/
def handleGD3D (s : XtvStream) (p : ℤ) (st : LoopState) : BlockStep :=
  match readIntList s 7 p with
  | none => .exc st
  | some ([nCells, nI, nJ, nK, dI, dJ, dK], p2) =>
    (match s.readString p2 with
     | none => .exc st
     | some (coordSysRaw, _) =>
       let coordSys := pyStrip coordSysRaw
       let t0 : Template :=
         { name := "GD3D", nCells := nCells, nCellsI := nI, nCellsJ := nJ, nCellsK := nK,
           dimi := nI, dimj := nJ, dimk := nK, dynAxI := dI, dynAxJ := dJ, dynAxK := dK,
           coordSys := coordSys }
       let t1 := if coordSys = "CART3D" then { t0 with coordi := "x", coordj := "y", coordk := "z" }
                 else if coordSys = "CYL3D" then { t0 with coordi := "r", coordj := "t", coordk := "z" }
                 else t0
       .ok { st with currentTempl := some t1 })
  | some _ => .exc st

/-- The `GD2D` block: declare a 2D template; four recognized coordinate
systems with different axis-label pairs. -/
def handleGD2D (s : XtvStream) (p : ℤ) (st : LoopState) : BlockStep :=
  match readIntList s 5 p with
  | none => .exc st
  | some ([nCells, nI, nJ, dI, dJ], p2) =>
    (match s.readString p2 with
     | none => .exc st
     | some (coordSysRaw, _) =>
       let coordSys := pyStrip coordSysRaw
       let t0 : Template :=
         { name := "GD2D", nCells := nCells, nCellsI := nI, nCellsJ := nJ,
           dimi := nI, dimj := nJ, dynAxI := dI, dynAxJ := dJ, coordSys := coordSys }
       let t1 := if coordSys = "CART2D" then { t0 with coordi := "x", coordj := "y" }
                 else if coordSys = "CYLRZ" then { t0 with coordi := "r", coordj := "z" }
                 else if coordSys = "CYLRT" then { t0 with coordi := "r", coordj := "t" }
                 else if coordSys = "CYLTZ" then { t0 with coordi := "t", coordj := "z" }
                 else t0
       .ok { st with currentTempl := some t1 })
  | some _ => .exc st

/-- The `GD1D` block: declare a 1D template. -/
def handleGD1D (s : XtvStream) (p : ℤ) (st : LoopState) : BlockStep :=
  match s.readInt p with
  | none => .exc st
  | some (nCells, p1) =>
  match s.readInt p1 with
  | none => .exc st
  | some (dI, _) =>
    let t : Template :=
      { name := "GD1D", nCells := nCells, nCellsI := nCells, dimi := nCells,
        dynAxI := dI, coordi := "x" }
    .ok { st with currentTempl := some t }

/-- Append the just-completed template to the current component's template
list (shared by the three `GD?A` handlers). -/
def appendTempl (st : LoopState) (t : Template) : BlockStep :=
  match st.currentComp with
  | none => .exc st
  | some key =>
    .ok { st with currentTempl := some t,
                  components := updComp st.components key (fun c =>
                    { c with templates := c.templates ++ [some t] }) }

/-- The `GD3A` block: the face-location and gravity arrays of the 3D
template just declared, then append it to the current component. -/
def handleGD3A (s : XtvStream) (p : ℤ) (st : LoopState) : BlockStep :=
  match s.readDoubleArray p with
  | none => .exc st
  | some (fI, p1) =>
  match s.readDoubleArray p1 with
  | none => .exc st
  | some (fJ, p2) =>
  match s.readDoubleArray p2 with
  | none => .exc st
  | some (fK, p3) =>
  match s.readDoubleArray p3 with
  | none => .exc st
  | some (grav, _) =>
  match st.currentTempl with
  | none => .exc st
  | some t => appendTempl st { t with fI := fI, fJ := fJ, fK := fK, grav := grav }

/-- The `GD2A` block. -/
def handleGD2A (s : XtvStream) (p : ℤ) (st : LoopState) : BlockStep :=
  match s.readDoubleArray p with
  | none => .exc st
  | some (fI, p1) =>
  match s.readDoubleArray p1 with
  | none => .exc st
  | some (fJ, p2) =>
  match s.readDoubleArray p2 with
  | none => .exc st
  | some (grav, _) =>
  match st.currentTempl with
  | none => .exc st
  | some t => appendTempl st { t with fI := fI, fJ := fJ, grav := grav }

/-- The `GD1A` block (the extra third array is the per-cell `fa` array). -/
def handleGD1A (s : XtvStream) (p : ℤ) (st : LoopState) : BlockStep :=
  match s.readDoubleArray p with
  | none => .exc st
  | some (fI, p1) =>
  match s.readDoubleArray p1 with
  | none => .exc st
  | some (grav, p2) =>
  match s.readDoubleArray p2 with
  | none => .exc st
  | some (fa, _) =>
  match st.currentTempl with
  | none => .exc st
  | some t => appendTempl st { t with fI := fI, grav := grav, fa := fa }

/-- The `GDLg` block: append a side leg to the current component. -/
def handleGDLg (s : XtvStream) (p : ℤ) (st : LoopState) : BlockStep :=
  match readIntList s 3 p with
  | none => .exc st
  | some ([sCell, eCell, jCell], _) =>
    (match st.currentComp with
     | none => .exc st
     | some key =>
       .ok { st with components := updComp st.components key (fun c =>
               { c with sidelegs := c.sidelegs ++ [⟨sCell, eCell, jCell⟩] }) })
  | some _ => .exc st

/-- The `DsAx` block: append a dynamic axis to the current component. -/
def handleDsAx (s : XtvStream) (p : ℤ) (st : LoopState) : BlockStep :=
  match readStringList s 4 p with
  | none => .exc st
  | some ([dsAx, varType, sVarName, lVarName], p1) =>
    (match s.readInt p1 with
     | none => .exc st
     | some (vMax, _) =>
       match st.currentComp with
       | none => .exc st
       | some key =>
         .ok { st with components := updComp st.components key (fun c =>
                 { c with dynAxes := c.dynAxes ++
                     [⟨dsAx, varType, sVarName, lVarName, vMax⟩] }) })
  | some _ => .exc st

/-- The `VARD` block: declare one channel on the current component.  The
channel (carrying the running `recordLength` as its `startIncrement`) is
inserted under the stripped name as soon as the name is read; the metadata
reads that follow fill it in, and a time-dependent frequency tag grows the
record length by `vLength * 4`. -/
def handleVARD (s : XtvStream) (p : ℤ) (st : LoopState) : BlockStep :=
  match s.readString p with
  | none => .exc st
  | some (varName, p1) =>
  match st.currentComp with
  | none => .exc st
  | some key =>
  let ch0 : Channel := { name := varName, comp := key, startIncrement := st.recordLength }
  let st1 := { st with components := updComp st.components key (fun c =>
                 { c with channels := dictSet c.channels (pyStrip varName) ch0 }) }
  match readStringList s 9 p1 with
  | none => .exc st1
  | some (strs, p2) =>
  match strs with
  | [varLabel, uType, uLabel, dimPosAt, freqAt, cMapAt, vectAt, spOptAt, vectName] =>
    (match readIntList s 2 p2 with
     | none => .exc st1
     | some ([vTmpl, vLength], _) =>
       let ch1 := { ch0 with
                    varLabel := varLabel, uType := uType, uLabel := uLabel,
                    dimPosAt := dimPosAt, freqAt := freqAt, cMapAt := cMapAt,
                    vectAt := vectAt, spOptAt := spOptAt, vectName := vectName,
                    vTmpl := vTmpl, vLength := vLength }
       let st2 := { st1 with components := updComp st1.components key (fun c =>
                      { c with channels := dictSet c.channels (pyStrip varName) ch1 }) }
       if freqAt = "TD" then .ok { st2 with recordLength := st2.recordLength + vLength * 4 }
       else .ok st2
     | some _ => .exc st1)
  | _ => .exc st1

/-- Outcome of the whole block loop. -/
inductive BlockLoopResult
  | done (st : LoopState)
  | exc (st : LoopState)
  | fuelOut (st : LoopState)

/-- Is the result the caught-exception outcome? -/
def BlockLoopResult.isExc : BlockLoopResult → Bool
  | .exc _ => true
  | _ => false

/-- The `while True` block loop: read the block type, revision, and size,
dispatch on the type (doing nothing for unrecognized tags), then seek
unconditionally to `start + jump`; `DATA` breaks out.  The fuel argument
only bounds the iteration count of the unbounded Python loop. -/
def blockLoop (s : XtvStream) : ℕ → ℤ → LoopState → BlockLoopResult
  | 0, _, st => .fuelOut st
  | fuel + 1, pos, st =>
    match s.readString pos with
    | none => .exc st
    | some (blockType, p1) =>
    match s.readInt p1 with
    | none => .exc st
    | some (_revision, p2) =>
    match s.readInt p2 with
    | none => .exc st
    | some (jump, p3) =>
    if blockType = "DATA" then .done st
    else
      match (if blockType = "GCHd" then handleGCHd s p3 st
             else if blockType = "GD3D" then handleGD3D s p3 st
             else if blockType = "GD3A" then handleGD3A s p3 st
             else if blockType = "GD2D" then handleGD2D s p3 st
             else if blockType = "GD2A" then handleGD2A s p3 st
             else if blockType = "GD1D" then handleGD1D s p3 st
             else if blockType = "GD1A" then handleGD1A s p3 st
             else if blockType = "GDLg" then handleGDLg s p3 st
             else if blockType = "DsAx" then handleDsAx s p3 st
             else if blockType = "VARD" then handleVARD s p3 st
             else .ok st) with
      | .exc st2 => .exc st2
      | .ok st2 => blockLoop s fuel (pos + jump) st2

/-- The time-index build: for each of the `nPoints` records, seek to
`dataStart + i*dataLen + 20` and decode one float.  A read failure here is
NOT caught by anything and propagates out of the constructor. -/
def timesRead (s : XtvStream) (sb : StartingBlock) : ℕ → ℤ → Option (List ℚ)
  | 0, _ => some []
  | n + 1, i =>
    match s.readFloat (sb.dataStart + i * sb.dataLen + 20) with
    | none => none
    | some (v, _) =>
      match timesRead s sb n (i + 1) with
      | none => none
      | some rest => some (v :: rest)

/-- `for i in range(self.SB.nPoints)` (an int; a negative count iterates
zero times). -/
def timesLoop (s : XtvStream) (sb : StartingBlock) : Option (List ℚ) :=
  timesRead s sb sb.nPoints.toNat 0

/-- The object `XtvFile.__init__` leaves behind.  `opened` is `none` when
the attribute was never assigned (the early non-MUX `return`), otherwise
the assigned boolean. -/
structure XtvObj where
  sb : StartingBlock
  components : List ((ℤ × String) × Component)
  times : List ℚ
  opened : Option Bool

/-- `XtvFile.__init__`.  The `try/except` around the starting-block unpack
only prints, so a failure there surfaces as the `AttributeError` raised by
the very next `self.SB` access (`.error`).  A non-`MUX` format tag returns
early with `opened` never assigned.  The block loop's `try/except` catches
any parse exception and assigns `opened = False` — but the constructor then
falls through to the time-index build and unconditionally ends with
`self.opened = True`, so the `False` written by the handler is always
overwritten (unless the time-index build itself raises, which propagates). -/
def xtvInit (s : XtvStream) (fuel : ℕ) : Except Unit XtvObj :=
  match parseStartingBlock s with
  | none => .error ()
  | some (sb, pos) =>
    if sb.fmtString ≠ "MUX" then .ok { sb := sb, components := [], times := [], opened := none }
    else
      let st0 : LoopState :=
        { components := [], currentComp := none, currentTempl := none, recordLength := 24 }
      match blockLoop s fuel pos st0 with
      | .fuelOut _ => .error ()
      | .done st =>
        (match timesLoop s sb with
         | none => .error ()
         | some times =>
           .ok { sb := sb, components := st.components, times := times, opened := some true })
      | .exc st =>
        -- the except handler's `self.opened = False` ...
        let _openedAfterHandler : Option Bool := some false
        (match timesLoop s sb with
         | none => .error ()
         | some times =>
           -- ... is unconditionally overwritten by the trailing `self.opened = True`
           .ok { sb := sb, components := st.components, times := times, opened := some true })

/-! ## Concrete states used by witnesses and counterexamples -/

/-- A freshly opened file with no components and no time edits. -/
def xtvEmpty : XtvState := ⟨[], [], 0, 0, fun _ => none⟩

/-- A scalar (`0D`) channel `sv` on component `(1, "pipe")`, one time edit
at `t = 0`, and the single stored value 5 at its record offset. -/
def chSv : Channel := { name := "sv", dimPosAt := "0D", vTmpl := 0, startIncrement := 24 }

/-- The component holding `chSv` (template slot 0 is the `None`
placeholder). -/
def compScalar : Component :=
  { number := 1, compType := "pipe", channels := [("sv", chSv)], templates := [none] }

/-- State with the scalar channel only. -/
def stateScalar : XtvState :=
  ⟨[((1, "pipe"), compScalar)], [0], 1000, 8, fun p => if p = 1024 then some 5 else none⟩

/-- A 2D channel `v2` with template extents `dimi = 2`, `dimj = 3` and
vector length 8, so the computed i-extent is `8 / (3 + 1) = 2`. -/
def ch2D : Channel :=
  { name := "v2", dimPosAt := "2dCc", vTmpl := 1, vLength := 8, startIncrement := 24 }

/-- The 2D template of `ch2D`. -/
def tmpl2D : Template := { name := "GD2D", dimi := 2, dimj := 3 }

/-- The component holding `ch2D`. -/
def comp2D : Component :=
  { number := 1, compType := "comp", channels := [("v2", ch2D)], templates := [none, some tmpl2D] }

/-- State with the 2D channel only. -/
def state2D : XtvState := ⟨[((1, "comp"), comp2D)], [0], 0, 0, fun _ => none⟩

/-- A 3D cell-center channel `v3` with template extents `dimi = 2`,
`dimj = 3`, `dimk = 4` and vector length 24, so the computed extents are
`24/(3*4) = 2`, `24/(2*4) = 3`, `24/(2*3) = 4`. -/
def ch3D : Channel :=
  { name := "v3", dimPosAt := "3dCc", vTmpl := 1, vLength := 24, startIncrement := 24 }

/-- The 3D template of `ch3D`. -/
def tmpl3D : Template := { name := "GD3D", dimi := 2, dimj := 3, dimk := 4, coordSys := "CART3D" }

/-- The component holding `ch3D`. -/
def comp3D : Component :=
  { number := 1, compType := "comp3", channels := [("v3", ch3D)], templates := [none, some tmpl3D] }

/-- State with the 3D channel only. -/
def state3D : XtvState := ⟨[((1, "comp3"), comp3D)], [0], 0, 0, fun _ => none⟩

/-- A scalar channel `p` with two time edits at `t = 2` and `t = 10`; the
stored values at the two record offsets (`100 + r*8 + 24`) are 10 and 30. -/
def chP : Channel := { name := "p", dimPosAt := "0D", vTmpl := 0, startIncrement := 24 }

/-- The component holding `chP`. -/
def compPoint : Component :=
  { number := 1, compType := "pipe", channels := [("p", chP)], templates := [none] }

/-- State with channel `p` and two decodable records. -/
def statePoint : XtvState :=
  ⟨[((1, "pipe"), compPoint)], [2, 10], 100, 8,
   fun p => if p = 124 then some 10 else if p = 132 then some 30 else none⟩

/-- `1.0000000000001`: an axial face location that survives `round(z, 13)`
unchanged but carries fourteen significant decimal digits. -/
def val14digits : ℚ := (10 ^ 13 + 1) / 10 ^ 13

/-- A 1D face channel `foo` on a generic (non-`htstrc`/`htstr`/`vessel`)
component whose template face array holds `val14digits`. -/
def chFoo : Channel :=
  { name := "foo", dimPosAt := "1dFa", vTmpl := 1, vLength := 1, startIncrement := 24 }

/-- The 1D template of `chFoo`. -/
def tmplRound : Template := { name := "GD1D", dimi := 1, fI := [(10 ^ 13 + 1) / 10 ^ 13] }

/-- The component holding `chFoo`. -/
def compRound : Component :=
  { number := 1, compType := "pipe", channels := [("foo", chFoo)], templates := [none, some tmplRound] }

/-- State for the rounding counterexample. -/
def stateRound : XtvState := ⟨[((1, "pipe"), compRound)], [0], 0, 0, fun _ => none⟩

/-- A fine-mesh `htstrc` variable `rftn` whose live `zht` array decodes to
`[5, 7]` — no `-1.0` sentinel anywhere. -/
def chRftn : Channel :=
  { name := "rftn", dimPosAt := "1dFa", vTmpl := 1, vLength := 2, startIncrement := 24 }

/-- The `zht` channel that the fine-mesh path reads. -/
def chZht : Channel :=
  { name := "zht", dimPosAt := "1dFa", vTmpl := 1, vLength := 2, startIncrement := 40 }

/-- Template for the fine-mesh component. -/
def tmplFine : Template := { name := "GD2D", dimi := 1, dimj := 1 }

/-- The `htstrc` component holding `rftn` and `zht`. -/
def compFine : Component :=
  { number := 1, compType := "htstrc",
    channels := [("rftn", chRftn), ("zht", chZht)], templates := [none, some tmplFine] }

/-- State for the missing-sentinel scenario: one time edit, `zht` bytes at
offsets 40 and 44 decode to 5 and 7. -/
def stateFineMesh : XtvState :=
  ⟨[((1, "htstrc"), compFine)], [0], 0, 100,
   fun p => if p = 40 then some 5 else if p = 44 then some 7 else none⟩

/-- A byte stream whose starting block parses (format tag `MUX`,
`nPoints = 0`, all ints 0) and whose first header-block read at position
100 fails, so the block loop raises immediately. -/
def streamBadBlock : XtvStream :=
  { readString := fun p => if p = 0 then some ("XTV", 4)
      else if 72 ≤ p ∧ p < 100 then some ("MUX", p + 4) else none
    readInt := fun p => if 4 ≤ p ∧ p < 72 then some (0, p + 4) else none
    readFloat := fun _ => none
    readDoubleArray := fun _ => none }

/-- The initial block-loop state of the constructor (header record length
starts at 24). -/
def initLoopState : LoopState :=
  { components := [], currentComp := none, currentTempl := none, recordLength := 24 }

/-! ## Spec-side notion for the rounding claim -/

/-- "`q` is representable with at most `d` significant decimal digits":
written from the specification's words, for comparison against the code's
`round(z, 13)`.  A number with at most `d` significant digits is an
integer mantissa below `10^d` times a power of ten. -/
def hasAtMostSigDigits (d : ℕ) (q : ℚ) : Prop :=
  ∃ (n e : ℤ), |n| < 10 ^ d ∧ q = (n : ℚ) * (10 : ℚ) ^ e

/-! ## General lemmas about the Python primitives -/

theorem bisectRightAux_eq (a : List ℚ) (x : ℚ) (K : ℕ)
    (hlow : ∀ m, m < K → a.getD m 0 ≤ x)
    (hhigh : ∀ m, K ≤ m → m < a.length → x < a.getD m 0) :
    ∀ fuel lo hi, hi - lo ≤ fuel → lo ≤ K → K ≤ hi → hi ≤ a.length →
      bisectRightAux a x fuel lo hi = K := by
  intro fuel
  induction fuel with
  | zero =>
    intro lo hi hf hlo hhi _
    simp only [bisectRightAux]
    omega
  | succ n ih =>
    intro lo hi hf hlo hhi hlen
    simp only [bisectRightAux]
    by_cases hlh : lo < hi
    · simp only [if_pos hlh]
      have hmid1 : lo ≤ (lo + hi) / 2 := by omega
      have hmid2 : (lo + hi) / 2 < hi := by omega
      by_cases hx : x < a.getD ((lo + hi) / 2) 0
      · simp only [if_pos hx]
        have hKm : K ≤ (lo + hi) / 2 := by
          by_contra hc
          push_neg at hc
          exact absurd (hlow _ hc) (not_le.mpr hx)
        exact ih lo ((lo + hi) / 2) (by omega) hlo hKm (by omega)
      · simp only [if_neg hx]
        have hmK : (lo + hi) / 2 < K := by
          by_contra hc
          push_neg at hc
          exact absurd (hhigh _ hc (by omega)) hx
        exact ih ((lo + hi) / 2 + 1) hi (by omega) (by omega) hhi hlen
    · simp only [if_neg hlh]
      omega

theorem bisectRight_eq (a : List ℚ) (x : ℚ) (K : ℕ) (hK : K ≤ a.length)
    (hlow : ∀ m, m < K → a.getD m 0 ≤ x)
    (hhigh : ∀ m, K ≤ m → m < a.length → x < a.getD m 0) :
    bisectRight a x = K :=
  bisectRightAux_eq a x K hlow hhigh a.length 0 a.length (by omega) (by omega) hK le_rfl

theorem pairwise_getD_lt {l : List ℚ} (h : l.Pairwise (· < ·)) {m n : ℕ}
    (hmn : m < n) (hn : n < l.length) : l.getD m 0 < l.getD n 0 := by
  rw [List.getD_eq_getElem l 0 (lt_trans hmn hn), List.getD_eq_getElem l 0 hn]
  exact List.pairwise_iff_getElem.mp h m n _ _ hmn

theorem pairwise_getD_le {l : List ℚ} (h : l.Pairwise (· ≤ ·)) {m n : ℕ}
    (hmn : m ≤ n) (hn : n < l.length) : l.getD m 0 ≤ l.getD n 0 := by
  rcases Nat.lt_or_ge m n with hlt | hge
  · rw [List.getD_eq_getElem l 0 (lt_trans hlt hn), List.getD_eq_getElem l 0 hn]
    exact List.pairwise_iff_getElem.mp h m n _ _ hlt
  · have : m = n := by omega
    rw [this]

theorem pyListGet_eq_getD {l : List ℚ} {n : ℕ} (h : n < l.length) :
    pyListGet l (n : ℤ) = .ok (l.getD n 0) := by
  unfold pyListGet
  have h0 : (0 : ℤ) ≤ (n : ℤ) ∧ ((n : ℤ)).toNat < l.length := by
    refine ⟨Int.natCast_nonneg n, ?_⟩
    simpa using h
  rw [dif_pos h0]
  congr 1
  rw [List.getD_eq_getElem l 0 h]
  simp [List.get_eq_getElem]

theorem pyListGet_last {l : List ℚ} (h : 0 < l.length) :
    pyListGet l (-1) = .ok (l.getD (l.length - 1) 0) := by
  unfold pyListGet
  have h1 : ¬ ((0 : ℤ) ≤ (-1 : ℤ) ∧ ((-1 : ℤ)).toNat < l.length) := by omega
  have h2 : (-1 : ℤ) < 0 ∧ (0 : ℤ) ≤ -1 + l.length ∧ ((-1 : ℤ) + l.length).toNat < l.length := by
    omega
  rw [dif_neg h1, dif_pos h2]
  congr 1
  have : ((-1 : ℤ) + l.length).toNat = l.length - 1 := by omega
  rw [List.getD_eq_getElem l 0 (by omega : l.length - 1 < l.length)]
  simp [List.get_eq_getElem, this]

theorem pyListIndex_not_mem {l : List ℚ} {x : ℚ} (h : x ∉ l) :
    pyListIndex l x = .error .valueError := by
  induction l with
  | nil => rfl
  | cons a rest ih =>
    simp only [List.mem_cons, not_or] at h
    rw [pyListIndex, if_neg (fun hax => h.1 hax.symm), ih h.2]

theorem pyRound_exists_int (q : ℚ) (nd : ℕ) :
    ∃ z : ℤ, pyRound q nd = (z : ℚ) / (10 : ℚ) ^ nd := by
  unfold pyRound
  by_cases hy : (0 : ℚ) ≤ q * (10 : ℚ) ^ nd
  · exact ⟨⌊q * (10 : ℚ) ^ nd + 1 / 2⌋, by rw [if_pos hy]⟩
  · exact ⟨⌈q * (10 : ℚ) ^ nd - 1 / 2⌉, by rw [if_neg hy]⟩

theorem pyRound_intCast_div (z : ℤ) (nd : ℕ) :
    pyRound ((z : ℚ) / (10 : ℚ) ^ nd) nd = (z : ℚ) / (10 : ℚ) ^ nd := by
  unfold pyRound
  have hm : ((10 : ℚ) ^ nd) ≠ 0 := pow_ne_zero _ (by norm_num)
  have hy : (z : ℚ) / (10 : ℚ) ^ nd * (10 : ℚ) ^ nd = (z : ℚ) := div_mul_cancel₀ _ hm
  rw [hy]
  by_cases hz : (0 : ℚ) ≤ (z : ℚ)
  · rw [if_pos hz]
    have hfl : ⌊(z : ℚ) + 1 / 2⌋ = z := by
      rw [add_comm, Int.floor_add_int]
      norm_num
    rw [hfl]
  · rw [if_neg hz]
    have hcl : ⌈(z : ℚ) - 1 / 2⌉ = z := by
      have : (z : ℚ) - 1 / 2 = -(1 / 2) + (z : ℚ) := by ring
      rw [this, Int.ceil_add_int]
      norm_num
    rw [hcl]

theorem pyRound_idempotent (q : ℚ) (nd : ℕ) :
    pyRound (pyRound q nd) nd = pyRound q nd := by
  obtain ⟨z, hz⟩ := pyRound_exists_int q nd
  rw [hz, pyRound_intCast_div]

theorem getDimPosAt_ok_inv {S : XtvState} {id : ℤ} {ct : Option String} {varName dp : String}
    (h : getDimPosAt S id ct varName = .ok dp) :
    ∃ comp ch, lookupComp S id ct = some comp ∧
      comp.channels.lookup (pyStrip varName) = some ch ∧ pyStrip ch.dimPosAt = dp := by
  unfold getDimPosAt at h
  split at h
  · exact absurd h (by simp)
  · rename_i comp hc
    split at h
    · exact absurd h (by simp)
    · rename_i ch hch
      exact ⟨comp, ch, hc, hch, Except.ok.inj h⟩

theorem singleton_isPrefixOf_excl {a b : Char} {l : List Char} (hab : a ≠ b)
    (h : List.isPrefixOf [a] l = true) : List.isPrefixOf [b] l = false := by
  cases l with
  | nil => simp [List.isPrefixOf] at h
  | cons c rest =>
    simp only [List.isPrefixOf, Bool.and_eq_true, beq_iff_eq] at h
    obtain ⟨rfl, -⟩ := h
    simp only [List.isPrefixOf, Bool.and_eq_false_iff]
    exact Or.inl (beq_eq_false_iff_ne.mpr (Ne.symm hab))

theorem startsWith_zero_excl {dp : String} (h : strStartsWith dp "0" = true) :
    strStartsWith dp "3" = false ∧ strStartsWith dp "2" = false ∧
      strStartsWith dp "1" = false := by
  unfold strStartsWith at h ⊢
  rw [show ("0" : String).data = ['0'] from rfl] at h
  exact ⟨singleton_isPrefixOf_excl (by decide) h, singleton_isPrefixOf_excl (by decide) h,
         singleton_isPrefixOf_excl (by decide) h⟩

/-! ## Claim theorems -/

/-- **C1** (code bug): on a byte stream whose starting block parses (format
tag `MUX`, zero time points) but whose first header-block read fails, the
block-parsing loop raises — and yet the constructor returns an object whose
`opened` flag is `True`: the `except` handler's `self.opened = False` is
unconditionally overwritten by the trailing `self.opened = True`.  The claim
that `opened` is `False` after any block-parsing exception is therefore
false on the code. -/
theorem c1_opened_true_despite_parse_exception :
    (blockLoop streamBadBlock 1 100 initLoopState).isExc = true ∧
    (xtvInit streamBadBlock 1).map XtvObj.opened = .ok (some true) ∧
    .ok (some true) ≠ (Except.ok (some false) : Except Unit (Option Bool)) := by
  refine ⟨by decide, by decide, by decide⟩

/-- **C2** (counterexample): `"totally-unparseable-999"` does NOT take the
fallback path — the trailing token `"999"` matches the mandatory `\d+`
group, so the identifier resolves to variable name `"totally-unparseable"`
with component id 999 and `None` mesh indices, not to the whole string with
id 0 and zero indices. -/
theorem c2_counterexample :
    (decodeChannel xtvEmpty "totally-unparseable-999").varName = "totally-unparseable" ∧
    (decodeChannel xtvEmpty "totally-unparseable-999").id = 999 ∧
    (decodeChannel xtvEmpty "totally-unparseable-999").a = none ∧
    ¬ ((decodeChannel xtvEmpty "totally-unparseable-999").varName = "totally-unparseable-999" ∧
       (decodeChannel xtvEmpty "totally-unparseable-999").id = 0 ∧
       (decodeChannel xtvEmpty "totally-unparseable-999").a = some 0) := by
  decide

/-- **C2 (amended)**: whenever the trailing id-and-mesh token fails to match
the identifier pattern, the entire original identifier becomes the variable
name with component id 0 and all mesh indices 0. -/
theorem c2_fallback_resolution (S : XtvState) (channel : String)
    (h : matchIdMesh ((rpartitionDash channel).2).data = none) :
    (decodeChannel S channel).varName = channel ∧
    (decodeChannel S channel).id = 0 ∧
    (decodeChannel S channel).a = some 0 ∧
    (decodeChannel S channel).r = some 0 ∧
    (decodeChannel S channel).t = some 0 := by
  simp only [decodeChannel, parseChannelString]
  rw [h]
  simp [compIDToInt, pyIntOfString, digitsToNat]

/-- Witness for the amended C2: `"totally-unparseable-xyz"` has a non-digit
trailing token, fails the pattern, and resolves through the fallback. -/
theorem c2_fallback_resolution_witness :
    matchIdMesh ((rpartitionDash "totally-unparseable-xyz").2).data = none ∧
    (decodeChannel xtvEmpty "totally-unparseable-xyz").varName = "totally-unparseable-xyz" ∧
    (decodeChannel xtvEmpty "totally-unparseable-xyz").id = 0 := by
  refine ⟨by decide, ?_, ?_⟩
  · exact (c2_fallback_resolution xtvEmpty "totally-unparseable-xyz" (by decide)).1
  · exact (c2_fallback_resolution xtvEmpty "totally-unparseable-xyz" (by decide)).2.1

/-- **C6** (counterexample): on a 2D channel (`dimi = 2`, `dimj = 3`,
vector length 8, so i-extent 2), calling `getData` with `i = 3` (beyond its
extent) and `j = 0` raises the i-axis UPPER-bound error: the i-extent check
runs before the j-axis lower-bound check, contradicting the claim that a
zero index always raises its lower-bound error before any extent check. -/
theorem c6_counterexample :
    getData state2D 0 1 (some "comp") "v2" (some 3) (some 0) (some 0) =
      .error (.xtv .INDEX_I_UBOUND_ERR) ∧
    (Except.error (Err.xtv XtvErr.INDEX_I_UBOUND_ERR) : Except Err ℚ) ≠
      .error (.xtv .INDEX_J_LBOUND_ERR) := by
  refine ⟨by decide, by decide⟩

/-- **C7** (code bug): on a `0D` channel, the single-point axial queries
`getAxialData` and `getAxialDataChannel` fail with the
`ScalarHasNoAxialExtent` XTV error, but `getTimeVectorAxial` — which lacks
the empty-list check — indexes `zLocs[-1]` on the empty axial-location list
and dies with an uncaught `IndexError` instead of the promised `XTVError`. -/
theorem c7_scalar_axial_queries :
    getAxialData stateScalar 0 1 (some "pipe") "sv" 0 none none =
      .error (.xtv .AXIAL_SCALAR_ERR) ∧
    getAxialDataChannel stateScalar 0 "sv-1" 0 = .error (.xtv .AXIAL_SCALAR_ERR) ∧
    getTimeVectorAxial stateScalar "sv-1" 0 = .error .indexError ∧
    (∀ e : XtvErr, (Except.error Err.indexError : Except Err (List (ℚ × ℚ))) ≠
      .error (.xtv e)) := by
  refine ⟨by decide, by decide, by decide, ?_⟩
  intro e h
  have h2 := Except.error.inj h
  simp at h2

theorem pyRound_val14digits : pyRound val14digits 13 = val14digits := by
  have h : val14digits = ((10 ^ 13 + 1 : ℤ) : ℚ) / (10 : ℚ) ^ (13 : ℕ) := by
    unfold val14digits
    push_cast
    norm_num
  rw [h, pyRound_intCast_div]

theorem val14digits_not_13_sig : ¬ hasAtMostSigDigits 13 val14digits := by
  rintro ⟨n, e, hn, heq⟩
  have h10 : (10 : ℚ) ≠ 0 := by norm_num
  have key : ((10 ^ 13 + 1 : ℤ) : ℚ) = (n : ℚ) * (10 : ℚ) ^ (e + 13) := by
    have h1 : val14digits * (10 : ℚ) ^ (13 : ℕ) = ((10 ^ 13 + 1 : ℤ) : ℚ) := by
      unfold val14digits
      push_cast
      field_simp
      norm_num
    rw [← h1, heq]
    rw [show (e + 13 : ℤ) = e + ((13 : ℕ) : ℤ) from by norm_num]
    rw [zpow_add₀ h10, zpow_natCast]
    ring
  have hlit : (10 : ℤ) ^ 13 = 10000000000000 := by norm_num
  have habs : n ≤ |n| := le_abs_self n
  rcases le_or_lt 0 (e + 13) with hf | hf
  · obtain ⟨m, hm⟩ : ∃ m : ℕ, e + 13 = (m : ℤ) := ⟨(e + 13).toNat, (Int.toNat_of_nonneg hf).symm⟩
    rw [hm, zpow_natCast] at key
    have keyZ : (10 ^ 13 + 1 : ℤ) = n * 10 ^ m := by exact_mod_cast key
    rcases Nat.eq_zero_or_pos m with hm0 | hm1
    · rw [hm0, pow_zero, mul_one] at keyZ
      omega
    · have hdvd : (10 : ℤ) ∣ 10 ^ 13 + 1 := by
        rw [keyZ]
        exact Dvd.dvd.mul_left (dvd_pow_self 10 (by omega : m ≠ 0)) n
      rw [hlit] at hdvd
      omega
  · obtain ⟨g, hge, hg1⟩ : ∃ g : ℕ, e + 13 = -(g : ℤ) ∧ 1 ≤ g :=
      ⟨(-(e + 13)).toNat, by omega, by omega⟩
    rw [hge] at key
    rw [zpow_neg, zpow_natCast] at key
    field_simp at key
    have keyZ : n = (10 ^ 13 + 1) * 10 ^ g := by exact_mod_cast key.symm
    have h10g : (10 : ℤ) ≤ 10 ^ g := by
      calc (10 : ℤ) = 10 ^ 1 := (pow_one 10).symm
      _ ≤ 10 ^ g := pow_le_pow_right₀ (by norm_num) hg1
    have hlarge : (10 ^ 13 + 1 : ℤ) * 10 ≤ n := by
      rw [keyZ]
      have hA : (0 : ℤ) < 10 ^ 13 + 1 := by positivity
      exact mul_le_mul_of_nonneg_left h10g (le_of_lt hA)
    omega

/-- **C8** (counterexample): `getAxialLocations` returns
`1.0000000000001` — a value with fourteen significant decimal digits —
unchanged, because `round(z, 13)` keeps 13 digits after the decimal point,
not 13 significant digits.  So not every returned value is rounded to 13
significant decimal digits. -/
theorem c8_counterexample :
    getAxialLocations stateRound 0 1 (some "pipe") "foo" = .ok [val14digits] ∧
    ¬ hasAtMostSigDigits 13 val14digits := by
  constructor
  · have hraw : getAxialLocationsRaw stateRound 0 1 (some "pipe") "foo" =
        .ok [val14digits] := rfl
    unfold getAxialLocations
    rw [hraw]
    simp only [Except.map, List.map]
    rw [pyRound_val14digits]
  · exact val14digits_not_13_sig

/-- **C8 (amended)**: every value in a successfully returned
`getAxialLocations` list is rounded to 13 DECIMAL PLACES — it is a fixed
point of Python 2's `round(·, 13)` (half away from zero), which is not the
same as 13 significant digits. -/
theorem c8_rounded_to_13_places (S : XtvState) (t : ℚ) (id : ℤ) (ct : Option String)
    (varName : String) (zs : List ℚ)
    (h : getAxialLocations S t id ct varName = .ok zs) :
    ∀ q ∈ zs, pyRound q 13 = q := by
  unfold getAxialLocations at h
  cases hraw : getAxialLocationsRaw S t id ct varName with
  | error e => rw [hraw] at h; simp [Except.map] at h
  | ok raw =>
    rw [hraw] at h
    simp only [Except.map] at h
    have hz : zs = raw.map (fun z => pyRound z 13) := (Except.ok.inj h).symm
    subst hz
    intro q hq
    obtain ⟨w, -, rfl⟩ := List.mem_map.mp hq
    exact pyRound_idempotent w 13

/-- Witness for the amended C8 at the concrete state. -/
theorem c8_rounded_to_13_places_witness :
    pyRound val14digits 13 = val14digits := by
  have h : getAxialLocations stateRound 0 1 (some "pipe") "foo" = .ok [val14digits] := by
    have hraw : getAxialLocationsRaw stateRound 0 1 (some "pipe") "foo" =
        .ok [val14digits] := rfl
    unfold getAxialLocations
    rw [hraw]
    simp only [Except.map, List.map]
    rw [pyRound_val14digits]
  exact c8_rounded_to_13_places stateRound 0 1 (some "pipe") "foo" [val14digits] h
    val14digits (by simp)

/-- **C9**: at the `getData` level, a channel whose `dimPosAt` starts with
`'0'` never validates and never uses the mesh indices: both the cell
computation and the full query return identical results for any (i, j, k),
the cell index being the constant 1. -/
theorem c9_zero_dim_ignores_indices (S : XtvState) (t : ℚ) (id : ℤ) (ct : Option String)
    (varName dp : String) (i j k i2 j2 k2 : Option ℤ)
    (hdp : getDimPosAt S id ct varName = .ok dp)
    (h0 : strStartsWith dp "0" = true) :
    getDataCell S id ct varName i j k = getDataCell S id ct varName i2 j2 k2 ∧
    getData S t id ct varName i j k = getData S t id ct varName i2 j2 k2 := by
  obtain ⟨h3, h2, h1⟩ := startsWith_zero_excl h0
  have hcells : ∀ a b c : Option ℤ, getDataCell S id ct varName a b c =
      getDataCell S id ct varName (some 0) (some 0) (some 0) := by
    intro a b c
    cases hcomp : lookupComp S id ct with
    | none => simp only [getDataCell, hdp, hcomp]
    | some comp =>
      cases hch : comp.channels.lookup (pyStrip varName) with
      | none => simp only [getDataCell, hdp, hcomp, hch]
      | some ch =>
        cases ht : pyListGet comp.templates ch.vTmpl with
        | error e => simp only [getDataCell, hdp, hcomp, hch, ht]
        | ok templOpt =>
          simp only [getDataCell, hdp, hcomp, hch, ht]
          simp [h3, h2, h1, h0]
  refine ⟨(hcells i j k).trans (hcells i2 j2 k2).symm, ?_⟩
  unfold getData
  rw [hcells i j k, hcells i2 j2 k2]

/-- Witness for C9 on the concrete two-edit state: two entirely different
index triples give the same answer on the `0D` channel `p`. -/
theorem c9_zero_dim_ignores_indices_witness :
    getData statePoint 10 1 (some "pipe") "p" (some 5) (some 7) none =
      getData statePoint 10 1 (some "pipe") "p" (some 1) none (some 3) :=
  (c9_zero_dim_ignores_indices statePoint 10 1 (some "pipe") "p" "0D"
    (some 5) (some 7) none (some 1) none (some 3) (by decide) (by decide)).2

/-- **C10**: for a fine-mesh variable on an `htstrc` component, when the
`zht` slice decoded at the record at-or-before the requested time contains
no `-1.0` sentinel, `getAxialLocations` raises Python's `ValueError` (from
`list.index`), not an `XTVError`. -/
theorem c10_fine_mesh_missing_sentinel (S : XtvState) (time : ℚ) (id : ℤ)
    (varName : String) (comp : Component) (ch ch2 chz : Channel) (L : List ℚ)
    (hcomp : lookupComp S id (some "htstrc") = some comp)
    (hch : comp.channels.lookup (pyStrip varName) = some ch)
    (hdp : pyStrip ch.dimPosAt = "1dFa")
    (hfine : fineMeshVars.contains varName = true)
    (hch2 : comp.channels.lookup varName = some ch2)
    (hzht : comp.channels.lookup "zht" = some chz)
    (hread : readFloats S (S.dataStart + ((bisectRight S.times time : ℤ) - 1) * S.dataLen +
        (chz.startIncrement + (1 - 1) * 4)) ch2.vLength.toNat = some L)
    (hnot : (-1 : ℚ) ∉ L) :
    getAxialLocations S time id (some "htstrc") varName = .error .valueError := by
  have hdim : getDimPosAt S id (some "htstrc") varName = .ok "1dFa" := by
    simp only [getDimPosAt, hcomp, hch, hdp]
  have hfm : varName ∈ fineMeshVars := by simpa using hfine
  have hread2 : readFloats S (S.dataStart + ((bisectRight S.times time : ℤ) - 1) * S.dataLen +
      chz.startIncrement) ch2.vLength.toNat = some L := by simpa using hread
  simp [getAxialLocations, getAxialLocationsRaw, hdim, hcomp, hch, hch2, hzht, hfm,
    hread2, pyListIndex_not_mem hnot, Except.map]

/-- Witness for C10: the concrete `htstrc` state whose `zht` record decodes
to `[5, 7]` (no sentinel) raises `ValueError`. -/
theorem c10_fine_mesh_missing_sentinel_witness :
    getAxialLocations stateFineMesh 0 1 (some "htstrc") "rftn" = .error .valueError :=
  c10_fine_mesh_missing_sentinel stateFineMesh 0 1 "rftn" compFine chRftn chRftn chZht
    [5, 7] (by decide) (by decide) (by decide) (by decide) (by decide) (by decide)
    (by decide) (by decide)

/-- **C3**: for a valid channel and a requested time `t ≥ 0` that exactly
equals the TimeIndex entry of 0-based record `r` (TimeIndex strictly
increasing), `getData` returns exactly the float decoded at
`dataStart + r*dataLen + startIncrement + (cell-1)*4` — no interpolation. -/
theorem c3_exact_time_direct_decode (S : XtvState) (id : ℤ) (ct : Option String)
    (varName : String) (i j k : Option ℤ) (cell : ℤ) (comp : Component) (ch : Channel)
    (r : ℕ) (t v : ℚ)
    (hcell : getDataCell S id ct varName i j k = .ok cell)
    (hcomp : lookupComp S id ct = some comp)
    (hch : comp.channels.lookup varName = some ch)
    (hsorted : S.times.Pairwise (· < ·))
    (hr : r < S.times.length)
    (ht : S.times.getD r 0 = t)
    (ht0 : 0 ≤ t)
    (hv : S.floatAt (S.dataStart + (r : ℤ) * S.dataLen +
        (ch.startIncrement + (cell - 1) * 4)) = some v) :
    getData S t id ct varName i j k = .ok v := by
  have hle : S.times.Pairwise (· ≤ ·) := hsorted.imp le_of_lt
  have hlen0 : 0 < S.times.length := by omega
  have hlast : pyListGet S.times (-1) = .ok (S.times.getD (S.times.length - 1) 0) :=
    pyListGet_last hlen0
  have htle : t ≤ S.times.getD (S.times.length - 1) 0 := by
    rw [← ht]
    exact pairwise_getD_le hle (by omega) (by omega)
  have h0le : S.times.getD 0 0 ≤ t := by
    rw [← ht]
    exact pairwise_getD_le hle (by omega) hr
  have h0get : pyListGet S.times (0 : ℤ) = .ok (S.times.getD 0 0) := by
    have h := pyListGet_eq_getD (l := S.times) (n := 0) hlen0
    simpa using h
  have hbis : bisectRight S.times t = r + 1 := by
    apply bisectRight_eq _ _ _ (by omega)
    · intro m hm
      rw [← ht]
      exact pairwise_getD_le hle (by omega) hr
    · intro m hm hmlen
      rw [← ht]
      exact pairwise_getD_lt hsorted (by omega) hmlen
  have hcast : (((r + 1 : ℕ) : ℤ)) - 1 = (r : ℤ) := by push_cast; ring
  have hrget : pyListGet S.times ((r : ℕ) : ℤ) = .ok t := by
    rw [pyListGet_eq_getD hr, ht]
  simp only [getData, hcell, hcomp, hch, hlast, not_lt.mpr ht0, not_lt.mpr htle,
    not_lt.mpr h0le, h0get, if_false, hbis, hcast, hrget, if_true, hv]

/-- Witness for C3: at `t = 10` (record 1) the value decoded at offset
`100 + 1*8 + 24 = 132` comes back exactly. -/
theorem c3_exact_time_direct_decode_witness :
    getData statePoint 10 1 (some "pipe") "p" (some 1) none none = .ok 30 :=
  c3_exact_time_direct_decode statePoint 1 (some "pipe") "p" (some 1) none none 1
    compPoint chP 1 10 30 (by decide) (by decide) (by decide) (by decide) (by decide)
    (by decide) (by decide) (by decide)

/-- **C4**: for a valid channel and a requested time strictly between two
adjacent TimeIndex entries `t1 < t < t2` (records `r` and `r+1`, decoded
values `v1` and `v2`), `getData` returns
`v1 + (v2 - v1) * (t - t1) / (t2 - t1)` exactly. -/
theorem c4_between_times_interpolation (S : XtvState) (id : ℤ) (ct : Option String)
    (varName : String) (i j k : Option ℤ) (cell : ℤ) (comp : Component) (ch : Channel)
    (r : ℕ) (t t1 t2 v1 v2 : ℚ)
    (hcell : getDataCell S id ct varName i j k = .ok cell)
    (hcomp : lookupComp S id ct = some comp)
    (hch : comp.channels.lookup varName = some ch)
    (hsorted : S.times.Pairwise (· < ·))
    (hr : r + 1 < S.times.length)
    (ht1 : S.times.getD r 0 = t1)
    (ht2 : S.times.getD (r + 1) 0 = t2)
    (hbtw1 : t1 < t) (hbtw2 : t < t2)
    (ht0 : 0 ≤ t)
    (hv1 : S.floatAt (S.dataStart + (r : ℤ) * S.dataLen +
        (ch.startIncrement + (cell - 1) * 4)) = some v1)
    (hv2 : S.floatAt (S.dataStart + ((r : ℤ) + 1) * S.dataLen +
        (ch.startIncrement + (cell - 1) * 4)) = some v2) :
    getData S t id ct varName i j k = .ok (v1 + (v2 - v1) * (t - t1) / (t2 - t1)) := by
  have hle : S.times.Pairwise (· ≤ ·) := hsorted.imp le_of_lt
  have hlen0 : 0 < S.times.length := by omega
  have hlast : pyListGet S.times (-1) = .ok (S.times.getD (S.times.length - 1) 0) :=
    pyListGet_last hlen0
  have htle : t ≤ S.times.getD (S.times.length - 1) 0 := by
    have h2 : S.times.getD (r + 1) 0 ≤ S.times.getD (S.times.length - 1) 0 :=
      pairwise_getD_le hle (by omega) (by omega)
    rw [ht2] at h2
    exact le_trans (le_of_lt hbtw2) h2
  have h0le : S.times.getD 0 0 ≤ t := by
    have h2 : S.times.getD 0 0 ≤ S.times.getD r 0 := pairwise_getD_le hle (by omega) (by omega)
    rw [ht1] at h2
    exact le_trans h2 (le_of_lt hbtw1)
  have h0get : pyListGet S.times (0 : ℤ) = .ok (S.times.getD 0 0) := by
    have h := pyListGet_eq_getD (l := S.times) (n := 0) hlen0
    simpa using h
  have hbis : bisectRight S.times t = r + 1 := by
    apply bisectRight_eq _ _ _ (by omega)
    · intro m hm
      have h2 : S.times.getD m 0 ≤ S.times.getD r 0 := pairwise_getD_le hle (by omega) (by omega)
      rw [ht1] at h2
      exact le_trans h2 (le_of_lt hbtw1)
    · intro m hm hmlen
      have h2 : S.times.getD (r + 1) 0 ≤ S.times.getD m 0 := pairwise_getD_le hle (by omega) hmlen
      rw [ht2] at h2
      exact lt_of_lt_of_le hbtw2 h2
  have hcast : (((r + 1 : ℕ) : ℤ)) - 1 = (r : ℤ) := by push_cast; ring
  have hrget : pyListGet S.times ((r : ℕ) : ℤ) = .ok t1 := by
    rw [pyListGet_eq_getD (by omega : r < S.times.length), ht1]
  have hnextget : pyListGet S.times (((r + 1 : ℕ)) : ℤ) = .ok t2 := by
    rw [pyListGet_eq_getD hr, ht2]
  have hv2i : S.floatAt (S.dataStart + (((r + 1 : ℕ)) : ℤ) * S.dataLen +
      (ch.startIncrement + (cell - 1) * 4)) = some v2 := by
    rw [show (((r + 1 : ℕ)) : ℤ) = (r : ℤ) + 1 from by push_cast; ring]
    exact hv2
  have hne : t ≠ t1 := ne_of_gt hbtw1
  have ht12 : ¬ (t2 - t1 = 0) := sub_ne_zero.mpr (ne_of_gt (lt_trans hbtw1 hbtw2))
  simp only [getData, hcell, hcomp, hch, hlast, not_lt.mpr ht0, not_lt.mpr htle,
    not_lt.mpr h0le, h0get, hbis, hcast, hrget, hnextget, hne, if_false,
    hv1, hv2i, interpolate, ht12]
  congr 1
  ring

/-- Witness for C4: at `t = 6` between the edits at 2 and 10 with values 10
and 30, the interpolation formula gives 20. -/
theorem c4_between_times_interpolation_witness :
    getData statePoint 6 1 (some "pipe") "p" (some 1) none none = .ok 20 := by
  have h := c4_between_times_interpolation statePoint 1 (some "pipe") "p" (some 1) none none 1
    compPoint chP 0 6 2 10 10 30 (by decide) (by decide) (by decide) (by decide) (by decide)
    (by decide) (by decide) (by norm_num) (by norm_num) (by norm_num) (by decide) (by decide)
  rw [h]
  norm_num

/-- **C5**: time-boundary handling of the queries.  A negative requested
time is rewritten to the last TimeIndex entry and (for a valid channel)
succeeds with the last record's decoded value; otherwise a time strictly
above the last entry raises `TIME_UBOUND_ERR` and a time strictly below
the first raises `TIME_LBOUND_ERR` — in `getData` and in `getAxialData`
alike, with no clamping or extrapolation. -/
theorem c5_time_bounds (S : XtvState) (id : ℤ) (ct : Option String)
    (varName : String) (i j k : Option ℤ) (cell : ℤ) (comp : Component) (ch : Channel)
    (t v zLoc : ℚ) (xr yt : Option ℤ)
    (hcell : getDataCell S id ct varName i j k = .ok cell)
    (hcomp : lookupComp S id ct = some comp)
    (hch : comp.channels.lookup varName = some ch)
    (hsorted : S.times.Pairwise (· ≤ ·))
    (hlen0 : 0 < S.times.length)
    (hv : S.floatAt (S.dataStart + ((S.times.length : ℤ) - 1) * S.dataLen +
        (ch.startIncrement + (cell - 1) * 4)) = some v) :
    (t < 0 → getData S t id ct varName i j k = .ok v) ∧
    (0 ≤ t → S.times.getD (S.times.length - 1) 0 < t →
      getData S t id ct varName i j k = .error (.xtv .TIME_UBOUND_ERR)) ∧
    (0 ≤ t → t < S.times.getD 0 0 →
      getData S t id ct varName i j k = .error (.xtv .TIME_LBOUND_ERR)) ∧
    (0 ≤ t → S.times.getD (S.times.length - 1) 0 < t →
      getAxialData S t id ct varName zLoc xr yt = .error (.xtv .TIME_UBOUND_ERR)) ∧
    (0 ≤ t → t < S.times.getD 0 0 →
      getAxialData S t id ct varName zLoc xr yt = .error (.xtv .TIME_LBOUND_ERR)) := by
  have hlast : pyListGet S.times (-1) = .ok (S.times.getD (S.times.length - 1) 0) :=
    pyListGet_last hlen0
  have h0get : pyListGet S.times (0 : ℤ) = .ok (S.times.getD 0 0) := by
    have h := pyListGet_eq_getD (l := S.times) (n := 0) hlen0
    simpa using h
  have h0last : S.times.getD 0 0 ≤ S.times.getD (S.times.length - 1) 0 :=
    pairwise_getD_le hsorted (by omega) (by omega)
  refine ⟨?_, ?_, ?_, ?_, ?_⟩
  · intro hneg
    have hbis : bisectRight S.times (S.times.getD (S.times.length - 1) 0) =
        S.times.length := by
      apply bisectRight_eq _ _ _ le_rfl
      · intro m hm
        exact pairwise_getD_le hsorted (by omega) (by omega)
      · intro m hm hmlen
        omega
    have hplast2 : pyListGet S.times ((S.times.length : ℤ) - 1) =
        .ok (S.times.getD (S.times.length - 1) 0) := by
      have h := pyListGet_eq_getD (l := S.times) (n := S.times.length - 1) (by omega)
      rw [show (((S.times.length - 1 : ℕ)) : ℤ) = (S.times.length : ℤ) - 1 from by omega] at h
      exact h
    simp only [getData, hcell, hcomp, hch, hneg, if_true, hlast, hbis, hplast2, hv]
  · intro ht0 hgt
    simp only [getData, hcell, hcomp, hch, not_lt.mpr ht0, hlast, hgt, if_false, if_true]
  · intro ht0 hlt
    have hngt : ¬ (S.times.getD (S.times.length - 1) 0 < t) :=
      not_lt.mpr (le_trans (le_of_lt hlt) h0last)
    simp only [getData, hcell, hcomp, hch, not_lt.mpr ht0, hlast, hngt, h0get, hlt,
      if_false, if_true]
  · intro ht0 hgt
    simp only [getAxialData, not_lt.mpr ht0, hlast, hgt, if_false, if_true]
  · intro ht0 hlt
    have hngt : ¬ (S.times.getD (S.times.length - 1) 0 < t) :=
      not_lt.mpr (le_trans (le_of_lt hlt) h0last)
    simp only [getAxialData, not_lt.mpr ht0, hlast, hngt, h0get, hlt, if_false, if_true]

/-- Witness for C5 on the concrete two-edit state (`times = [2, 10]`):
`t = -3` latches to the last edit's value 30, `t = 99` and `t = 1` raise
the two bound errors, for `getData` and `getAxialData` alike. -/
theorem c5_time_bounds_witness :
    getData statePoint (-3) 1 (some "pipe") "p" (some 1) none none = .ok 30 ∧
    getData statePoint 99 1 (some "pipe") "p" (some 1) none none =
      .error (.xtv .TIME_UBOUND_ERR) ∧
    getData statePoint 1 1 (some "pipe") "p" (some 1) none none =
      .error (.xtv .TIME_LBOUND_ERR) ∧
    getAxialData statePoint 99 1 (some "pipe") "p" 0 none none =
      .error (.xtv .TIME_UBOUND_ERR) ∧
    getAxialData statePoint 1 1 (some "pipe") "p" 0 none none =
      .error (.xtv .TIME_LBOUND_ERR) := by
  have h99 := c5_time_bounds statePoint 1 (some "pipe") "p" (some 1) none none 1
    compPoint chP 99 30 0 none none (by decide) (by decide) (by decide) (by decide)
    (by decide) (by decide)
  have h1 := c5_time_bounds statePoint 1 (some "pipe") "p" (some 1) none none 1
    compPoint chP 1 30 0 none none (by decide) (by decide) (by decide) (by decide)
    (by decide) (by decide)
  have hm3 := c5_time_bounds statePoint 1 (some "pipe") "p" (some 1) none none 1
    compPoint chP (-3) 30 0 none none (by decide) (by decide) (by decide) (by decide)
    (by decide) (by decide)
  exact ⟨hm3.1 (by decide), h99.2.1 (by decide) (by decide),
    h1.2.2.1 (by decide) (by decide), h99.2.2.2.1 (by decide) (by decide),
    h1.2.2.2.2 (by decide) (by decide)⟩

/-- **C6 (amended)**: the effective order of the index checks in `getData`.
In the 3D case the three lower-bound checks (i, then j, then k) run before
any extent is computed or checked, and afterwards the extent checks run in
i, j, k order with the per-suffix extent formulas (including the distinct
`CYL3D` J-face formulas).  In the 2D case the checks are interleaved per
axis — i lower-bound, i upper-bound, j lower-bound, j upper-bound — so an
i beyond its extent raises `INDEX_I_UBOUND_ERR` even when j is 0 or
absent.  In the 1D case the i lower-bound check precedes the extent check
against the raw vector length.  Within each axis, 0/absence raises the
lower-bound error and exceeding the computed extent raises the upper-bound
error. -/
theorem c6_index_check_order (S : XtvState) (id : ℤ) (ct : Option String)
    (varName dp : String) (i j k : Option ℤ) (comp : Component) (ch : Channel)
    (o : Option Template)
    (hdp : getDimPosAt S id ct varName = .ok dp)
    (hcomp : lookupComp S id ct = some comp)
    (hch : comp.channels.lookup (pyStrip varName) = some ch)
    (htmpl : pyListGet comp.templates ch.vTmpl = .ok o) :
    ((strStartsWith dp "3" = true → isNoneOrZero i = true →
        getDataCell S id ct varName i j k = .error (.xtv .INDEX_I_LBOUND_ERR)) ∧
     (strStartsWith dp "3" = true → isNoneOrZero i = false → isNoneOrZero j = true →
        getDataCell S id ct varName i j k = .error (.xtv .INDEX_J_LBOUND_ERR)) ∧
     (strStartsWith dp "3" = true → isNoneOrZero i = false → isNoneOrZero j = false →
        isNoneOrZero k = true →
        getDataCell S id ct varName i j k = .error (.xtv .INDEX_K_LBOUND_ERR))) ∧
    (∀ T : Template, o = some T → strStartsWith dp "3" = true →
      ∀ iv jv kv : ℤ, i = some iv → iv ≠ 0 → j = some jv → jv ≠ 0 → k = some kv → kv ≠ 0 →
      ((strEndsWith dp "I" = true →
        T.dimj * T.dimk ≠ 0 → (T.dimi + 1) * T.dimk ≠ 0 → (T.dimi + 1) * T.dimj ≠ 0 →
        ((Int.fdiv ch.vLength (T.dimj * T.dimk) < iv →
            getDataCell S id ct varName i j k = .error (.xtv .INDEX_I_UBOUND_ERR)) ∧
         (iv ≤ Int.fdiv ch.vLength (T.dimj * T.dimk) →
          Int.fdiv ch.vLength ((T.dimi + 1) * T.dimk) < jv →
            getDataCell S id ct varName i j k = .error (.xtv .INDEX_J_UBOUND_ERR)) ∧
         (iv ≤ Int.fdiv ch.vLength (T.dimj * T.dimk) →
          jv ≤ Int.fdiv ch.vLength ((T.dimi + 1) * T.dimk) →
          Int.fdiv ch.vLength ((T.dimi + 1) * T.dimj) < kv →
            getDataCell S id ct varName i j k = .error (.xtv .INDEX_K_UBOUND_ERR)))) ∧
       (strEndsWith dp "I" = false → strEndsWith dp "J" = true → T.coordSys = "CYL3D" →
        T.dimj * T.dimk ≠ 0 → T.dimi * T.dimk ≠ 0 → T.dimi * T.dimj ≠ 0 →
        ((Int.fdiv ch.vLength (T.dimj * T.dimk) < iv →
            getDataCell S id ct varName i j k = .error (.xtv .INDEX_I_UBOUND_ERR)) ∧
         (iv ≤ Int.fdiv ch.vLength (T.dimj * T.dimk) →
          Int.fdiv ch.vLength (T.dimi * T.dimk) < jv →
            getDataCell S id ct varName i j k = .error (.xtv .INDEX_J_UBOUND_ERR)) ∧
         (iv ≤ Int.fdiv ch.vLength (T.dimj * T.dimk) →
          jv ≤ Int.fdiv ch.vLength (T.dimi * T.dimk) →
          Int.fdiv ch.vLength (T.dimi * T.dimj) < kv →
            getDataCell S id ct varName i j k = .error (.xtv .INDEX_K_UBOUND_ERR)))) ∧
       (strEndsWith dp "I" = false → strEndsWith dp "J" = true → T.coordSys ≠ "CYL3D" →
        (T.dimj + 1) * T.dimk ≠ 0 → T.dimi * T.dimk ≠ 0 → T.dimi * (T.dimj + 1) ≠ 0 →
        ((Int.fdiv ch.vLength ((T.dimj + 1) * T.dimk) < iv →
            getDataCell S id ct varName i j k = .error (.xtv .INDEX_I_UBOUND_ERR)) ∧
         (iv ≤ Int.fdiv ch.vLength ((T.dimj + 1) * T.dimk) →
          Int.fdiv ch.vLength (T.dimi * T.dimk) < jv →
            getDataCell S id ct varName i j k = .error (.xtv .INDEX_J_UBOUND_ERR)) ∧
         (iv ≤ Int.fdiv ch.vLength ((T.dimj + 1) * T.dimk) →
          jv ≤ Int.fdiv ch.vLength (T.dimi * T.dimk) →
          Int.fdiv ch.vLength (T.dimi * (T.dimj + 1)) < kv →
            getDataCell S id ct varName i j k = .error (.xtv .INDEX_K_UBOUND_ERR)))) ∧
       (strEndsWith dp "I" = false → strEndsWith dp "J" = false → strEndsWith dp "K" = true →
        T.dimj * (T.dimk + 1) ≠ 0 → T.dimi * (T.dimk + 1) ≠ 0 → T.dimi * T.dimj ≠ 0 →
        ((Int.fdiv ch.vLength (T.dimj * (T.dimk + 1)) < iv →
            getDataCell S id ct varName i j k = .error (.xtv .INDEX_I_UBOUND_ERR)) ∧
         (iv ≤ Int.fdiv ch.vLength (T.dimj * (T.dimk + 1)) →
          Int.fdiv ch.vLength (T.dimi * (T.dimk + 1)) < jv →
            getDataCell S id ct varName i j k = .error (.xtv .INDEX_J_UBOUND_ERR)) ∧
         (iv ≤ Int.fdiv ch.vLength (T.dimj * (T.dimk + 1)) →
          jv ≤ Int.fdiv ch.vLength (T.dimi * (T.dimk + 1)) →
          Int.fdiv ch.vLength (T.dimi * T.dimj) < kv →
            getDataCell S id ct varName i j k = .error (.xtv .INDEX_K_UBOUND_ERR)))) ∧
       (strEndsWith dp "I" = false → strEndsWith dp "J" = false → strEndsWith dp "K" = false →
        strEndsWith dp "c" = true →
        T.dimj * T.dimk ≠ 0 → T.dimi * T.dimk ≠ 0 → T.dimi * T.dimj ≠ 0 →
        ((Int.fdiv ch.vLength (T.dimj * T.dimk) < iv →
            getDataCell S id ct varName i j k = .error (.xtv .INDEX_I_UBOUND_ERR)) ∧
         (iv ≤ Int.fdiv ch.vLength (T.dimj * T.dimk) →
          Int.fdiv ch.vLength (T.dimi * T.dimk) < jv →
            getDataCell S id ct varName i j k = .error (.xtv .INDEX_J_UBOUND_ERR)) ∧
         (iv ≤ Int.fdiv ch.vLength (T.dimj * T.dimk) →
          jv ≤ Int.fdiv ch.vLength (T.dimi * T.dimk) →
          Int.fdiv ch.vLength (T.dimi * T.dimj) < kv →
            getDataCell S id ct varName i j k = .error (.xtv .INDEX_K_UBOUND_ERR)))))) ∧
    (∀ T : Template, o = some T → strStartsWith dp "3" = false →
      strStartsWith dp "2" = true → T.dimj + 1 ≠ 0 → T.dimi ≠ 0 →
      ((isNoneOrZero i = true →
          getDataCell S id ct varName i j k = .error (.xtv .INDEX_I_LBOUND_ERR)) ∧
       (∀ iv : ℤ, i = some iv → iv ≠ 0 → Int.fdiv ch.vLength (T.dimj + 1) < iv →
          getDataCell S id ct varName i j k = .error (.xtv .INDEX_I_UBOUND_ERR)) ∧
       (∀ iv : ℤ, i = some iv → iv ≠ 0 → iv ≤ Int.fdiv ch.vLength (T.dimj + 1) →
          isNoneOrZero j = true →
          getDataCell S id ct varName i j k = .error (.xtv .INDEX_J_LBOUND_ERR)) ∧
       (∀ iv jv : ℤ, i = some iv → iv ≠ 0 → iv ≤ Int.fdiv ch.vLength (T.dimj + 1) →
          j = some jv → jv ≠ 0 → Int.fdiv ch.vLength T.dimi < jv →
          getDataCell S id ct varName i j k = .error (.xtv .INDEX_J_UBOUND_ERR)))) ∧
    (strStartsWith dp "3" = false → strStartsWith dp "2" = false →
      strStartsWith dp "1" = true →
      ((isNoneOrZero i = true →
          getDataCell S id ct varName i j k = .error (.xtv .INDEX_I_LBOUND_ERR)) ∧
       (∀ iv : ℤ, i = some iv → iv ≠ 0 → ch.vLength < iv →
          getDataCell S id ct varName i j k = .error (.xtv .INDEX_I_UBOUND_ERR)))) := by
  refine ⟨⟨?_, ?_, ?_⟩, ?_, ?_, ?_⟩
  · intro h3 hiz
    cases i with
    | none => simp [getDataCell, hdp, hcomp, hch, htmpl, h3]
    | some iv =>
      have hiv : iv = 0 := by simpa [isNoneOrZero] using hiz
      subst hiv
      simp [getDataCell, hdp, hcomp, hch, htmpl, h3]
  · intro h3 hiz hjz
    obtain ⟨iv, rfl, hiv⟩ : ∃ iv : ℤ, i = some iv ∧ ¬ (iv = 0) := by
      cases i with
      | none => simp [isNoneOrZero] at hiz
      | some iv => exact ⟨iv, rfl, by simpa [isNoneOrZero] using hiz⟩
    cases j with
    | none => simp [getDataCell, hdp, hcomp, hch, htmpl, h3, hiv]
    | some jv =>
      have hjv : jv = 0 := by simpa [isNoneOrZero] using hjz
      subst hjv
      simp [getDataCell, hdp, hcomp, hch, htmpl, h3, hiv]
  · intro h3 hiz hjz hkz
    obtain ⟨iv, rfl, hiv⟩ : ∃ iv : ℤ, i = some iv ∧ ¬ (iv = 0) := by
      cases i with
      | none => simp [isNoneOrZero] at hiz
      | some iv => exact ⟨iv, rfl, by simpa [isNoneOrZero] using hiz⟩
    obtain ⟨jv, rfl, hjv⟩ : ∃ jv : ℤ, j = some jv ∧ ¬ (jv = 0) := by
      cases j with
      | none => simp [isNoneOrZero] at hjz
      | some jv => exact ⟨jv, rfl, by simpa [isNoneOrZero] using hjz⟩
    cases k with
    | none => simp [getDataCell, hdp, hcomp, hch, htmpl, h3, hiv, hjv]
    | some kv =>
      have hkv : kv = 0 := by simpa [isNoneOrZero] using hkz
      subst hkv
      simp [getDataCell, hdp, hcomp, hch, htmpl, h3, hiv, hjv]
  · rintro T rfl h3 iv jv kv rfl hiv rfl hjv rfl hkv
    refine ⟨?_, ?_, ?_, ?_, ?_⟩
    · intro hI hd1 hd2 hd3
      have hdiv1 : pyDiv ch.vLength (T.dimj * T.dimk) =
          .ok (Int.fdiv ch.vLength (T.dimj * T.dimk)) := by simp [pyDiv, hd1]
      have hdiv2 : pyDiv ch.vLength ((T.dimi + 1) * T.dimk) =
          .ok (Int.fdiv ch.vLength ((T.dimi + 1) * T.dimk)) := by simp [pyDiv, hd2]
      have hdiv3 : pyDiv ch.vLength ((T.dimi + 1) * T.dimj) =
          .ok (Int.fdiv ch.vLength ((T.dimi + 1) * T.dimj)) := by simp [pyDiv, hd3]
      refine ⟨?_, ?_, ?_⟩
      · intro hub
        simp [getDataCell, hdp, hcomp, hch, htmpl, h3, hiv, hjv, hkv, hI,
          hdiv1, hdiv2, hdiv3, hub]
      · intro hile hub
        simp [getDataCell, hdp, hcomp, hch, htmpl, h3, hiv, hjv, hkv, hI,
          hdiv1, hdiv2, hdiv3, not_lt.mpr hile, hub]
      · intro hile hjle hub
        simp [getDataCell, hdp, hcomp, hch, htmpl, h3, hiv, hjv, hkv, hI,
          hdiv1, hdiv2, hdiv3, not_lt.mpr hile, not_lt.mpr hjle, hub]
    · intro hInot hJ hcyl hd1 hd2 hd3
      have hdiv1 : pyDiv ch.vLength (T.dimj * T.dimk) =
          .ok (Int.fdiv ch.vLength (T.dimj * T.dimk)) := by simp [pyDiv, hd1]
      have hdiv2 : pyDiv ch.vLength (T.dimi * T.dimk) =
          .ok (Int.fdiv ch.vLength (T.dimi * T.dimk)) := by simp [pyDiv, hd2]
      have hdiv3 : pyDiv ch.vLength (T.dimi * T.dimj) =
          .ok (Int.fdiv ch.vLength (T.dimi * T.dimj)) := by simp [pyDiv, hd3]
      refine ⟨?_, ?_, ?_⟩
      · intro hub
        simp [getDataCell, hdp, hcomp, hch, htmpl, h3, hiv, hjv, hkv, hInot, hJ, hcyl,
          hdiv1, hdiv2, hdiv3, hub]
      · intro hile hub
        simp [getDataCell, hdp, hcomp, hch, htmpl, h3, hiv, hjv, hkv, hInot, hJ, hcyl,
          hdiv1, hdiv2, hdiv3, not_lt.mpr hile, hub]
      · intro hile hjle hub
        simp [getDataCell, hdp, hcomp, hch, htmpl, h3, hiv, hjv, hkv, hInot, hJ, hcyl,
          hdiv1, hdiv2, hdiv3, not_lt.mpr hile, not_lt.mpr hjle, hub]
    · intro hInot hJ hncyl hd1 hd2 hd3
      have hdiv1 : pyDiv ch.vLength ((T.dimj + 1) * T.dimk) =
          .ok (Int.fdiv ch.vLength ((T.dimj + 1) * T.dimk)) := by simp [pyDiv, hd1]
      have hdiv2 : pyDiv ch.vLength (T.dimi * T.dimk) =
          .ok (Int.fdiv ch.vLength (T.dimi * T.dimk)) := by simp [pyDiv, hd2]
      have hdiv3 : pyDiv ch.vLength (T.dimi * (T.dimj + 1)) =
          .ok (Int.fdiv ch.vLength (T.dimi * (T.dimj + 1))) := by simp [pyDiv, hd3]
      refine ⟨?_, ?_, ?_⟩
      · intro hub
        simp [getDataCell, hdp, hcomp, hch, htmpl, h3, hiv, hjv, hkv, hInot, hJ, hncyl,
          hdiv1, hdiv2, hdiv3, hub]
      · intro hile hub
        simp [getDataCell, hdp, hcomp, hch, htmpl, h3, hiv, hjv, hkv, hInot, hJ, hncyl,
          hdiv1, hdiv2, hdiv3, not_lt.mpr hile, hub]
      · intro hile hjle hub
        simp [getDataCell, hdp, hcomp, hch, htmpl, h3, hiv, hjv, hkv, hInot, hJ, hncyl,
          hdiv1, hdiv2, hdiv3, not_lt.mpr hile, not_lt.mpr hjle, hub]
    · intro hInot hJnot hK hd1 hd2 hd3
      have hdiv1 : pyDiv ch.vLength (T.dimj * (T.dimk + 1)) =
          .ok (Int.fdiv ch.vLength (T.dimj * (T.dimk + 1))) := by simp [pyDiv, hd1]
      have hdiv2 : pyDiv ch.vLength (T.dimi * (T.dimk + 1)) =
          .ok (Int.fdiv ch.vLength (T.dimi * (T.dimk + 1))) := by simp [pyDiv, hd2]
      have hdiv3 : pyDiv ch.vLength (T.dimi * T.dimj) =
          .ok (Int.fdiv ch.vLength (T.dimi * T.dimj)) := by simp [pyDiv, hd3]
      refine ⟨?_, ?_, ?_⟩
      · intro hub
        simp [getDataCell, hdp, hcomp, hch, htmpl, h3, hiv, hjv, hkv, hInot, hJnot, hK,
          hdiv1, hdiv2, hdiv3, hub]
      · intro hile hub
        simp [getDataCell, hdp, hcomp, hch, htmpl, h3, hiv, hjv, hkv, hInot, hJnot, hK,
          hdiv1, hdiv2, hdiv3, not_lt.mpr hile, hub]
      · intro hile hjle hub
        simp [getDataCell, hdp, hcomp, hch, htmpl, h3, hiv, hjv, hkv, hInot, hJnot, hK,
          hdiv1, hdiv2, hdiv3, not_lt.mpr hile, not_lt.mpr hjle, hub]
    · intro hInot hJnot hKnot hc hd1 hd2 hd3
      have hdiv1 : pyDiv ch.vLength (T.dimj * T.dimk) =
          .ok (Int.fdiv ch.vLength (T.dimj * T.dimk)) := by simp [pyDiv, hd1]
      have hdiv2 : pyDiv ch.vLength (T.dimi * T.dimk) =
          .ok (Int.fdiv ch.vLength (T.dimi * T.dimk)) := by simp [pyDiv, hd2]
      have hdiv3 : pyDiv ch.vLength (T.dimi * T.dimj) =
          .ok (Int.fdiv ch.vLength (T.dimi * T.dimj)) := by simp [pyDiv, hd3]
      refine ⟨?_, ?_, ?_⟩
      · intro hub
        simp [getDataCell, hdp, hcomp, hch, htmpl, h3, hiv, hjv, hkv, hInot, hJnot, hKnot,
          hc, hdiv1, hdiv2, hdiv3, hub]
      · intro hile hub
        simp [getDataCell, hdp, hcomp, hch, htmpl, h3, hiv, hjv, hkv, hInot, hJnot, hKnot,
          hc, hdiv1, hdiv2, hdiv3, not_lt.mpr hile, hub]
      · intro hile hjle hub
        simp [getDataCell, hdp, hcomp, hch, htmpl, h3, hiv, hjv, hkv, hInot, hJnot, hKnot,
          hc, hdiv1, hdiv2, hdiv3, not_lt.mpr hile, not_lt.mpr hjle, hub]
  · rintro T rfl h3 h2 hdj hdi
    have hdiv1 : pyDiv ch.vLength (T.dimj + 1) = .ok (Int.fdiv ch.vLength (T.dimj + 1)) := by
      simp [pyDiv, hdj]
    have hdiv2 : pyDiv ch.vLength T.dimi = .ok (Int.fdiv ch.vLength T.dimi) := by
      simp [pyDiv, hdi]
    refine ⟨?_, ?_, ?_, ?_⟩
    · intro hiz
      cases i with
      | none => simp [getDataCell, hdp, hcomp, hch, htmpl, h3, h2, hdiv1]
      | some iv =>
        have hiv : iv = 0 := by simpa [isNoneOrZero] using hiz
        subst hiv
        simp [getDataCell, hdp, hcomp, hch, htmpl, h3, h2, hdiv1]
    · rintro iv rfl hiv hub
      simp [getDataCell, hdp, hcomp, hch, htmpl, h3, h2, hdiv1, hiv, hub]
    · rintro iv rfl hiv hile hjz
      have hnub : ¬ (Int.fdiv ch.vLength (T.dimj + 1) < iv) := not_lt.mpr hile
      cases j with
      | none => simp [getDataCell, hdp, hcomp, hch, htmpl, h3, h2, hdiv1, hdiv2, hiv, hnub]
      | some jv =>
        have hjv : jv = 0 := by simpa [isNoneOrZero] using hjz
        subst hjv
        simp [getDataCell, hdp, hcomp, hch, htmpl, h3, h2, hdiv1, hdiv2, hiv, hnub]
    · rintro iv jv rfl hiv hile rfl hjv hub
      have hnub : ¬ (Int.fdiv ch.vLength (T.dimj + 1) < iv) := not_lt.mpr hile
      simp [getDataCell, hdp, hcomp, hch, htmpl, h3, h2, hdiv1, hdiv2, hiv, hnub, hjv, hub]
  · intro h3 h2 h1
    refine ⟨?_, ?_⟩
    · intro hiz
      cases i with
      | none => simp [getDataCell, hdp, hcomp, hch, htmpl, h3, h2, h1]
      | some iv =>
        have hiv : iv = 0 := by simpa [isNoneOrZero] using hiz
        subst hiv
        simp [getDataCell, hdp, hcomp, hch, htmpl, h3, h2, h1]
    · rintro iv rfl hiv hub
      simp [getDataCell, hdp, hcomp, hch, htmpl, h3, h2, h1, hiv, hub]

/-- Witness for the amended C6.  On the 2D state (`dimi = 2`, `dimj = 3`,
vector length 8, i-extent 2): with a valid `i` a zero `j` raises
`INDEX_J_LBOUND_ERR`, but with `i = 3` beyond its extent the i-axis
upper-bound error fires first even though `j = 0`.  On the 3D cell-center
state (`dimi = 2`, `dimj = 3`, `dimk = 4`, vector length 24): `i = 3`
beyond its extent 2 raises `INDEX_I_UBOUND_ERR`, and with i, j in range
`k = 5` beyond its extent 4 raises `INDEX_K_UBOUND_ERR`. -/
theorem c6_index_check_order_witness :
    getDataCell state2D 1 (some "comp") "v2" (some 1) (some 0) none =
      .error (.xtv .INDEX_J_LBOUND_ERR) ∧
    getDataCell state2D 1 (some "comp") "v2" (some 3) (some 0) none =
      .error (.xtv .INDEX_I_UBOUND_ERR) ∧
    getDataCell state3D 1 (some "comp3") "v3" (some 3) (some 1) (some 1) =
      .error (.xtv .INDEX_I_UBOUND_ERR) ∧
    getDataCell state3D 1 (some "comp3") "v3" (some 1) (some 2) (some 5) =
      .error (.xtv .INDEX_K_UBOUND_ERR) := by
  refine ⟨?_, ?_, ?_, ?_⟩
  · exact (((c6_index_check_order state2D 1 (some "comp") "v2" "2dCc" (some 1) (some 0) none
      comp2D ch2D (some tmpl2D) (by decide) (by decide) (by decide) (by decide)).2.2.1)
      tmpl2D rfl (by decide) (by decide) (by decide) (by decide)).2.2.1 1 rfl
      (by decide) (by decide) (by decide)
  · exact (((c6_index_check_order state2D 1 (some "comp") "v2" "2dCc" (some 3) (some 0) none
      comp2D ch2D (some tmpl2D) (by decide) (by decide) (by decide) (by decide)).2.2.1)
      tmpl2D rfl (by decide) (by decide) (by decide) (by decide)).2.1 3 rfl
      (by decide) (by decide)
  · exact ((((c6_index_check_order state3D 1 (some "comp3") "v3" "3dCc" (some 3) (some 1)
      (some 1) comp3D ch3D (some tmpl3D) (by decide) (by decide) (by decide)
      (by decide)).2.1) tmpl3D rfl (by decide) 3 1 1 rfl (by decide) rfl (by decide) rfl
      (by decide)).2.2.2.2 (by decide) (by decide) (by decide) (by decide) (by decide)
      (by decide) (by decide)).1 (by decide)
  · exact ((((c6_index_check_order state3D 1 (some "comp3") "v3" "3dCc" (some 1) (some 2)
      (some 5) comp3D ch3D (some tmpl3D) (by decide) (by decide) (by decide)
      (by decide)).2.1) tmpl3D rfl (by decide) 1 2 5 rfl (by decide) rfl (by decide) rfl
      (by decide)).2.2.2.2 (by decide) (by decide) (by decide) (by decide) (by decide)
      (by decide) (by decide)).2.2 (by decide) (by decide) (by decide)
